import Mathlib

/-!
Verification of the arcade baseball batting simulator.

The development shallowly embeds the core simulation: the ball projectile
(`Ball`), the swing timer (`Bat`), the at-bat state machine (`Game`), and the
pitcher AI weighted selection (`PitchDef`).  Numeric values are modelled as
real numbers; random draws, DOM rectangle queries and the camera projection of
the ball are supplied as explicit oracle inputs, mirroring how the simulator
receives them from its environment.
-/

noncomputable section

/-- Three-component vector, mirroring THREE.Vector3 as used by the game. -/
@[ext]
structure Vec3 where
  x : ℝ
  y : ℝ
  z : ℝ

instance : Add Vec3 := ⟨fun a b => ⟨a.x + b.x, a.y + b.y, a.z + b.z⟩⟩

instance : Sub Vec3 := ⟨fun a b => ⟨a.x - b.x, a.y - b.y, a.z - b.z⟩⟩

/-- multiplyScalar. -/
def Vec3.smul (k : ℝ) (v : Vec3) : Vec3 := ⟨k * v.x, k * v.y, k * v.z⟩

/-- Vector3.length. -/
def Vec3.length (v : Vec3) : ℝ := Real.sqrt (v.x * v.x + v.y * v.y + v.z * v.z)

/-- Vector3.lengthSq. -/
def Vec3.lengthSq (v : Vec3) : ℝ := v.x * v.x + v.y * v.y + v.z * v.z

/-- Vector3.normalize = divideScalar(length). -/
def Vec3.normalize (v : Vec3) : Vec3 := Vec3.smul (1 / v.length) v

/-- Vector3.addScaledVector. -/
def Vec3.addScaled (v w : Vec3) (k : ℝ) : Vec3 := v + Vec3.smul k w

/-- Vector3.lerpVectors: componentwise a + (b - a) * t. -/
def Vec3.lerpVectors (a b : Vec3) (t : ℝ) : Vec3 :=
  ⟨a.x + (b.x - a.x) * t, a.y + (b.y - a.y) * t, a.z + (b.z - a.z) * t⟩

theorem Vec3.add_def (a b : Vec3) : a + b = ⟨a.x + b.x, a.y + b.y, a.z + b.z⟩ := rfl

theorem Vec3.sub_def (a b : Vec3) : a - b = ⟨a.x - b.x, a.y - b.y, a.z - b.z⟩ := rfl

/-- MathUtils.lerp. -/
def mathLerp (a b t : ℝ) : ℝ := (1 - t) * a + t * b

/-- MathUtils.clamp. -/
def clampR (v lo hi : ℝ) : ℝ := max lo (min hi v)

/-- MathUtils.randFloat with the uniform draw r in [0,1) made explicit. -/
def randFloat (lo hi r : ℝ) : ℝ := lo + r * (hi - lo)

/-- MathUtils.randFloatSpread with the uniform draw r in [0,1) made explicit. -/
def randFloatSpread (range r : ℝ) : ℝ := range * (0.5 - r)

/-- MathUtils.degToRad. -/
def degToRad (d : ℝ) : ℝ := d * (Real.pi / 180)

/-- Rotation about the world up axis (0,1,0), as applyAxisAngle performs it. -/
def rotateY (v : Vec3) (angle : ℝ) : Vec3 :=
  ⟨v.x * Real.cos angle + v.z * Real.sin angle, v.y,
   -v.x * Real.sin angle + v.z * Real.cos angle⟩

/-- JavaScript Math.round on the values the game rounds (floor of x + 1/2). -/
def jsRound (x : ℝ) : ℤ := ⌊x + 1 / 2⌋

/-- Unit conversion constant from Game.js. -/
def MPH_TO_MS : ℝ := 0.44704

/-- Unit conversion constant from Game.js. -/
def FT_PER_M : ℝ := 3.28084

/-- Plate plane depth coordinate. -/
def plateZ : ℝ := 0.25

/-- Pitcher release point, roughly 60.5 ft from the plate. -/
def pitcherPosition : Vec3 := ⟨0, 1.1, -18.4⟩

def strikeZoneCenterZ : ℝ := plateZ

def strikeZoneCenterY : ℝ := 1.1

def strikeZoneWidth : ℝ := 0.6

def strikeZoneHeight : ℝ := 0.8

def zoneLeftX : ℝ := -(strikeZoneWidth / 2)

def zoneRightX : ℝ := strikeZoneWidth / 2

def zoneTopY : ℝ := strikeZoneCenterY + strikeZoneHeight / 2

def zoneBottomY : ℝ := strikeZoneCenterY - strikeZoneHeight / 2

/-- World gravity vector. -/
def gravityVec : Vec3 := ⟨0, -9.8, 0⟩

def pitchDragCoeff : ℝ := 0.02

def flightDragCoeff : ℝ := 0.03

def maxStrikes : ℕ := 3

def resultDelay : ℝ := 1.2

def swingTimingWindowZ : ℝ := 0.6

def maxScreenDistForHit : ℝ := 0.18

def maxScreenDistForPerfect : ℝ := 0.07

/-- The ball projectile: position, velocity, active and struck flags. -/
@[ext]
structure Ball where
  pos : Vec3
  vel : Vec3
  isActive : Bool
  isHit : Bool

/-- Ball.update: gravity, then quadratic drag (guarded), then position. -/
def Ball.update (b : Ball) (dt : ℝ) (gravity : Vec3) (dragCoeff : ℝ) : Ball :=
  if b.isActive = false then b
  else
    let v1 := b.vel.addScaled gravity dt
    let v2 :=
      if 0 < dragCoeff then
        if 0.0001 < v1.length then
          v1.addScaled (Vec3.smul (-(dragCoeff * (v1.length * v1.length))) v1.normalize) dt
        else v1
      else v1
    { pos := b.pos.addScaled v2 dt, vel := v2, isActive := b.isActive, isHit := b.isHit }

/-- Ball.startPitch: velocity = copy(direction).setLength(speed). -/
def Ball.startPitch (_b : Ball) (startPosition direction : Vec3) (speed : ℝ) : Ball :=
  { pos := startPosition, vel := Vec3.smul speed direction.normalize,
    isActive := true, isHit := false }

/-- Ball.launch. -/
def Ball.launch (b : Ball) (newVelocity : Vec3) : Ball :=
  { b with vel := newVelocity, isHit := true, isActive := true }

/-- Ball.deactivate. -/
def Ball.deactivate (b : Ball) : Ball := { b with isActive := false }

/-- Swing timing state of the bat.  The keyframed pose interpolation of
Bat.update only drives the rendered bat rotation and is not modelled; the
swing clock and activity flag are embedded exactly. -/
@[ext]
structure Bat where
  swingActive : Bool
  swingTime : ℝ

def Bat.SWING_DURATION : ℝ := 0.55

def Bat.CONTACT_START : ℝ := 0.16

def Bat.CONTACT_END : ℝ := 0.22

/-- Bat.startSwing: a new swing is only accepted once the previous finished. -/
def Bat.startSwing (b : Bat) : Bat :=
  if b.swingActive = true ∧ b.swingTime < Bat.SWING_DURATION then b
  else { swingActive := true, swingTime := 0 }

/-- Bat.update, restricted to the swing clock (pose is presentation only). -/
def Bat.update (b : Bat) (dt : ℝ) : Bat :=
  if b.swingActive = false then b
  else if Bat.SWING_DURATION ≤ b.swingTime + dt then
    { swingActive := false, swingTime := Bat.SWING_DURATION }
  else { swingActive := true, swingTime := b.swingTime + dt }

/-- Bat.isInContactWindow: contact window on normalized swing time. -/
def Bat.isInContactWindow (b : Bat) : Prop :=
  if b.swingActive = false ∧ Bat.SWING_DURATION ≤ b.swingTime then False
  else
    Bat.CONTACT_START ≤ b.swingTime / Bat.SWING_DURATION ∧
      b.swingTime / Bat.SWING_DURATION ≤ Bat.CONTACT_END

/-- Game states. -/
inductive GState where
  | IDLE
  | PITCHING
  | SWINGING
  | BALL_IN_PLAY
  | RESULT
deriving DecidableEq

/-- Mutable state of the at-bat state machine (Game in Game.js). -/
@[ext]
structure Game where
  state : GState
  stateTimer : ℝ
  score : ℤ
  strikes : ℕ
  outs : ℕ
  lastResult : String
  lastPitchType : String
  lastPitchMph : ℝ
  lastExitMph : ℝ
  lastHitDistanceFeet : ℝ
  lastWasFairHit : Bool
  currentPitchCall : String
  currentPitchHasCrossedPlate : Bool
  swingUsedThisPitch : Bool
  hadContactThisPitch : Bool
  pitchSpeedMph : ℝ
  pitchMoveXPerSec : ℝ
  pitchMoveYPerSec : ℝ
  pitchGravityScale : ℝ
  ball : Ball
  bat : Bat

/-- Game state right after the constructor runs. -/
def initGame : Game :=
  { state := GState.IDLE, stateTimer := 0, score := 0, strikes := 0, outs := 0,
    lastResult := "Ready", lastPitchType := "Fastball", lastPitchMph := 92,
    lastExitMph := 0, lastHitDistanceFeet := 0, lastWasFairHit := false,
    currentPitchCall := "—", currentPitchHasCrossedPlate := false,
    swingUsedThisPitch := false, hadContactThisPitch := false,
    pitchSpeedMph := 92, pitchMoveXPerSec := 0, pitchMoveYPerSec := 0,
    pitchGravityScale := 0.75,
    ball := { pos := ⟨0, -10, 0⟩, vel := ⟨0, 0, 0⟩, isActive := false, isHit := false },
    bat := { swingActive := false, swingTime := 0 } }

/-- Game._addStrike. -/
def Game.addStrike (s : Game) : Game :=
  let s1 := { s with strikes := s.strikes + 1 }
  if maxStrikes ≤ s1.strikes then { s1 with strikes := 0, outs := s1.outs + 1 }
  else s1

/-- Game._callPitchAtPlate as a pure call on the crossing point. -/
def callPitchAtPlate (pos : Vec3) : String :=
  if (zoneLeftX ≤ pos.x ∧ pos.x ≤ zoneRightX) ∧ (zoneBottomY ≤ pos.y ∧ pos.y ≤ zoneTopY)
  then "Strike" else "Ball"

/-- Game._checkPlateCrossing. -/
def Game.checkPlateCrossing (s : Game) (prevPos currPos : Vec3) : Game :=
  if s.currentPitchHasCrossedPlate = true ∨ s.ball.isActive = false ∨
      s.hadContactThisPitch = true then s
  else if prevPos.z < plateZ ∧ plateZ ≤ currPos.z then
    let t := (plateZ - prevPos.z) / (currPos.z - prevPos.z)
    let intersection := Vec3.lerpVectors prevPos currPos t
    { s with currentPitchCall := callPitchAtPlate intersection,
             currentPitchHasCrossedPlate := true }
  else s

/-- Game._enterResultState. -/
def Game.enterResultState (s : Game) : Game :=
  { s with state := GState.RESULT, stateTimer := 0 }

/-- Game._toIdle. -/
def Game.toIdle (s : Game) : Game :=
  { s with
    state := GState.IDLE, stateTimer := 0,
    ball := if s.ball.isActive = false then { s.ball with pos := ⟨0, -10, 0⟩ } else s.ball,
    currentPitchCall := "—" }

/-- Game._finishPitchWithoutContact. -/
def Game.finishPitchWithoutContact (optionalLabel : Option String) (s : Game) : Game :=
  let s1 :=
    if s.currentPitchCall = "Ball" then
      { s with lastResult := optionalLabel.getD "Ball" }
    else if s.swingUsedThisPitch = true then
      { s.addStrike with lastResult := "Strike (swinging)" }
    else if s.currentPitchCall = "Strike" then
      { s.addStrike with lastResult := "Strike (looking)" }
    else
      { s with lastResult := optionalLabel.getD "Miss" }
  let s2 := { s1 with ball := { s1.ball.deactivate with pos := ⟨0, -10, 0⟩ } }
  s2.enterResultState

/-- Motion part of Game._updatePitching: integrate the ball with per-pitch
gravity and drag, apply the break to the velocity, check plate crossing. -/
def Game.pitchMotion (dt : ℝ) (s : Game) : Game :=
  let pitchGravity := Vec3.smul s.pitchGravityScale gravityVec
  let b1 := s.ball.update dt pitchGravity pitchDragCoeff
  let b2 := { b1 with vel := ⟨b1.vel.x + s.pitchMoveXPerSec * dt,
                              b1.vel.y + s.pitchMoveYPerSec * dt, b1.vel.z⟩ }
  Game.checkPlateCrossing { s with ball := b2 } s.ball.pos b2.pos

/-- Game._updatePitching. -/
def Game.updatePitching (dt : ℝ) (s : Game) : Game :=
  let s2 := s.pitchMotion dt
  if (strikeZoneCenterZ + 1.0 < s2.ball.pos.z ∨ s2.ball.pos.y < 0 ∨
        s2.ball.isActive = false) ∧ s2.hadContactThisPitch = false then
    s2.finishPitchWithoutContact (if s2.ball.pos.y < 0 then some "In the dirt" else none)
  else s2

/-- Game._updateBallInPlay. -/
def Game.updateBallInPlay (dt : ℝ) (s : Game) : Game :=
  if s.ball.isActive = false then s.enterResultState
  else
    let b := s.ball.update dt gravityVec flightDragCoeff
    if b.pos.y ≤ 0 then
      let horizDistM := Real.sqrt (b.pos.x * b.pos.x + (b.pos.z - plateZ) * (b.pos.z - plateZ))
      let horizDistFt := horizDistM * FT_PER_M
      let s1 := { s with ball := b, lastHitDistanceFeet := horizDistFt }
      let s2 :=
        if s1.lastWasFairHit = true ∧ 0 < s1.lastHitDistanceFeet then
          { s1 with score := s1.score +
              jsRound (s1.lastHitDistanceFeet * 0.5 + max 0 (s1.lastExitMph - 60) * 1.1) }
        else s1
      Game.enterResultState { s2 with ball := s2.ball.deactivate }
    else if 150 * 150 < b.pos.lengthSq then
      Game.enterResultState { s with ball := b.deactivate }
    else { s with ball := b }

/-- Uniform draws consumed by Game._startPitch, one per Math.random call. -/
structure PitchOracle where
  rSpeed : ℝ
  rMoveX : ℝ
  rMoveY : ℝ
  rGravity : ℝ
  rIntent : ℝ
  rSide : ℝ
  rX : ℝ
  rY : ℝ

def PitchOracle.valid (o : PitchOracle) : Prop :=
  (0 ≤ o.rSpeed ∧ o.rSpeed < 1) ∧ (0 ≤ o.rMoveX ∧ o.rMoveX < 1) ∧
  (0 ≤ o.rMoveY ∧ o.rMoveY < 1) ∧ (0 ≤ o.rGravity ∧ o.rGravity < 1) ∧
  (0 ≤ o.rIntent ∧ o.rIntent < 1) ∧ (0 ≤ o.rSide ∧ o.rSide < 1) ∧
  (0 ≤ o.rX ∧ o.rX < 1) ∧ (0 ≤ o.rY ∧ o.rY < 1)

/-- Aim target of Game._startPitch: in-zone target for strike intent, else a
miss off one of the four sides of the zone. -/
def startPitchTarget (o : PitchOracle) : ℝ × ℝ :=
  if o.rIntent < 0.7 then
    (randFloat (zoneLeftX * 0.6) (zoneRightX * 0.6) o.rX,
     strikeZoneCenterY + randFloatSpread (strikeZoneHeight * 0.4) o.rY)
  else
    let side : ℤ := ⌊o.rSide * 4⌋
    let off := strikeZoneHeight * 0.5
    if side = 0 then
      (randFloat (zoneLeftX * 0.8) (zoneRightX * 0.8) o.rX, zoneTopY + off)
    else if side = 1 then
      (randFloat (zoneLeftX * 0.8) (zoneRightX * 0.8) o.rX, zoneBottomY - off)
    else if side = 2 then
      (zoneRightX + off,
       strikeZoneCenterY + randFloatSpread (strikeZoneHeight * 0.2) o.rY)
    else
      (zoneLeftX - off,
       strikeZoneCenterY + randFloatSpread (strikeZoneHeight * 0.2) o.rY)

/-- Game._startPitch. -/
def Game.startPitch (o : PitchOracle) (s : Game) : Game :=
  let speedMph := randFloat 88 97 o.rSpeed
  let speedMs := speedMph * MPH_TO_MS
  let xy := startPitchTarget o
  let target : Vec3 := ⟨xy.1, xy.2, strikeZoneCenterZ⟩
  let direction := (target - pitcherPosition).normalize
  { s with
    state := GState.PITCHING, stateTimer := 0,
    pitchSpeedMph := speedMph, lastPitchType := "Fastball", lastPitchMph := speedMph,
    pitchMoveXPerSec := randFloat (-0.9) 0.9 o.rMoveX,
    pitchMoveYPerSec := randFloat (-1.0) 0.2 o.rMoveY,
    pitchGravityScale := randFloat 0.55 0.9 o.rGravity,
    ball := s.ball.startPitch pitcherPosition direction speedMs,
    currentPitchCall := "—", currentPitchHasCrossedPlate := false,
    swingUsedThisPitch := false, hadContactThisPitch := false,
    lastResult := "Pitching" }

/-- Game.requestPitch. -/
def Game.requestPitch (o : PitchOracle) (s : Game) : Game :=
  if s.state = GState.IDLE then s.startPitch o else s

/-- DOMRect of the strike-zone overlay as the UI reports it. -/
structure AimRect where
  left : ℝ
  top : ℝ
  width : ℝ
  height : ℝ

/-- External inputs consumed by Game._tryScreenSpaceContact: the camera
projection of the ball (opaque geometry provider), window dimensions, the
overlay rectangle and the player reticle in normalized zone coordinates. -/
structure AimInput where
  projX : ℝ
  projY : ℝ
  innerWidth : ℝ
  innerHeight : ℝ
  rect : Option AimRect
  reticleU : ℝ
  reticleV : ℝ

def AimInput.valid (a : AimInput) : Prop :=
  0 < a.innerWidth ∧ 0 < a.innerHeight ∧
  0 ≤ a.reticleU ∧ a.reticleU ≤ 1 ∧ 0 ≤ a.reticleV ∧ a.reticleV ≤ 1

/-- Quality factor from reticle distance, as computed in
Game._tryScreenSpaceContact (clamped linear decay from the hit radius). -/
def distFactorOf (dist : ℝ) : ℝ := clampR (1 - dist / maxScreenDistForHit) 0 1

/-- Contact quality: 1 inside the perfect radius, else 0.7 times the decayed
distance factor. -/
def perfectFactor (dist : ℝ) : ℝ :=
  if dist ≤ maxScreenDistForPerfect then 1 else distFactorOf dist * 0.7

/-- Game._tryScreenSpaceContact, returning the contact point and quality when
contact occurs (the source mutates state via _onContact instead). -/
def Game.tryScreenSpaceContact (a : AimInput) (s : Game) : Option (Vec3 × ℝ) :=
  if s.ball.isActive = false then none
  else
    let ballPos := s.ball.pos
    let zDelta := |ballPos.z - plateZ|
    if ¬zDelta ≤ swingTimingWindowZ then none
    else
      match a.rect with
      | none => none
      | some rect =>
        if rect.width = 0 ∨ rect.height = 0 then none
        else
          let screenX := ((a.projX + 1) / 2) * a.innerWidth
          let screenY := ((-a.projY + 1) / 2) * a.innerHeight
          let u := (screenX - rect.left) / rect.width
          let v := (screenY - rect.top) / rect.height
          let du := u - a.reticleU
          let dv := v - a.reticleV
          let dist := Real.sqrt (du * du + dv * dv)
          if maxScreenDistForHit < dist then none
          else some (ballPos, perfectFactor dist)

/-- Game._onContact. -/
def Game.onContact (ballPos : Vec3) (contactQuality rSpray : ℝ) (s : Game) : Game :=
  let quality := clampR contactQuality 0 1
  let exitMph := 65 + (110 - 65) * quality
  let exitMs := exitMph * MPH_TO_MS
  let launchAngleDeg := clampR (8 + 20 * quality) 0 35
  let elevRad := degToRad launchAngleDeg
  let baseDir := (⟨0, Real.tan elevRad, -1⟩ : Vec3).normalize
  let timingOffset := ballPos.z - plateZ
  let pullFactor := clampR (-timingOffset / swingTimingWindowZ) (-1) 1
  let sideAngle := degToRad 30 * pullFactor
  let launchDir := rotateY (rotateY baseDir sideAngle) (randFloatSpread (degToRad 4) rSpray)
  { s with
    hadContactThisPitch := true, lastExitMph := exitMph,
    ball := s.ball.launch (Vec3.smul exitMs launchDir.normalize),
    lastWasFairHit := true,
    lastResult := if 0.85 < quality then "Perfect contact" else "In play",
    state := GState.BALL_IN_PLAY, stateTimer := 0 }

/-- Game.handleSwing. -/
def Game.handleSwing (a : AimInput) (rSpray : ℝ) (s : Game) : Game :=
  let s0 := { s with bat := s.bat.startSwing }
  if s0.state = GState.PITCHING ∨ s0.state = GState.SWINGING then
    if s0.swingUsedThisPitch = true then s0
    else
      let s1 := { s0 with swingUsedThisPitch := true, state := GState.SWINGING }
      match s1.tryScreenSpaceContact a with
      | some bq => s1.onContact bq.1 bq.2 rSpray
      | none => { s1 with lastResult := "Swinging..." }
  else s0

/-- Game.update: advance the state timer, dispatch on the current state, and
always advance the bat swing animation. -/
def Game.update (dt : ℝ) (s : Game) : Game :=
  let s1 := { s with stateTimer := s.stateTimer + dt }
  let s2 :=
    match s1.state with
    | GState.IDLE => s1
    | GState.PITCHING => s1.updatePitching dt
    | GState.SWINGING => s1.updatePitching dt
    | GState.BALL_IN_PLAY => s1.updateBallInPlay dt
    | GState.RESULT => if resultDelay ≤ s1.stateTimer then s1.toIdle else s1
  { s2 with bat := s2.bat.update dt }

/-- The three externally triggered operations of the state machine. -/
inductive GInput where
  | tick (dt : ℝ)
  | pitch (o : PitchOracle)
  | swing (a : AimInput) (rSpray : ℝ)

def Game.step : GInput → Game → Game
  | GInput.tick dt, s => s.update dt
  | GInput.pitch o, s => s.requestPitch o
  | GInput.swing a r, s => s.handleSwing a r

/-- States reachable from the fresh game by ticks, pitch requests and swings,
with the oracle draws constrained as their sources guarantee. -/
inductive Reachable : Game → Prop
  | init : Reachable initGame
  | tick {s : Game} (dt : ℝ) : Reachable s → 0 ≤ dt →
      Reachable (Game.step (GInput.tick dt) s)
  | pitch {s : Game} (o : PitchOracle) : Reachable s → o.valid →
      Reachable (Game.step (GInput.pitch o) s)
  | swing {s : Game} (a : AimInput) (r : ℝ) : Reachable s → a.valid →
      0 ≤ r → r < 1 → Reachable (Game.step (GInput.swing a r) s)

/-- Pitch archetype record from the pitcher AI (PitcherAI.pitchDefs entries). -/
structure PitchDef where
  code : String
  name : String
  speedMin : ℝ
  speedMax : ℝ
  movementXPerSec : ℝ
  movementYPerSec : ℝ
  gravityScale : ℝ
  usageWeight : ℝ

def fourSeamDef : PitchDef :=
  ⟨"FOUR_SEAM", "Four-seam Fastball", 93, 98, 0.8, 0.5, 0.55, 0.5⟩

def sliderDef : PitchDef :=
  ⟨"SLIDER", "Slider", 84, 89, -1.6, -1.5, 0.9, 0.2⟩

def curveDef : PitchDef :=
  ⟨"CURVE", "Curveball", 76, 82, -0.6, -6.0, 1.4, 0.15⟩

def changeupDef : PitchDef :=
  ⟨"CHANGEUP", "Changeup", 80, 86, 0.4, 0.8, 0.9, 0.15⟩

def pitchDefs : List PitchDef := [fourSeamDef, sliderDef, curveDef, changeupDef]

/-- Total weight, as the reduce over usage weights starting from 0. -/
def totalUsageWeight (l : List PitchDef) : ℝ :=
  l.foldl (fun sum p => sum + p.usageWeight) 0

/-- The walk inside PitcherAI._chooseWeightedRandom: subtract weights from the
draw and return the first item whose weight exceeds the remaining draw. -/
def weightedWalk : List PitchDef → ℝ → Option PitchDef
  | [], _ => none
  | p :: rest, r => if r < p.usageWeight then some p else weightedWalk rest (r - p.usageWeight)

/-- PitcherAI._chooseWeightedRandom with the scaled draw r made explicit; the
fallback returns the last list entry (undefined on an empty list in the
source, hence the Option result). -/
def chooseWeightedRandom (l : List PitchDef) (r : ℝ) : Option PitchDef :=
  match weightedWalk l r with
  | some p => some p
  | none => l.getLast?

/-- Selection following the words of the specification: walk the definitions
accumulating weight and return the first whose cumulative weight exceeds the
draw. -/
def firstCumExceeding : List PitchDef → ℝ → ℝ → Option PitchDef
  | [], _, _ => none
  | p :: rest, r, acc =>
    if r < acc + p.usageWeight then some p else firstCumExceeding rest r (acc + p.usageWeight)

/-- Spec-side weighted choice: first cumulative exceeder, falling back to the
last definition. -/
def chooseWeightedSpec (l : List PitchDef) (r : ℝ) : Option PitchDef :=
  match firstCumExceeding l r 0 with
  | some p => some p
  | none => l.getLast?

/-- Ball integration following the words of the specification: velocity
advances by gravity * dt, then, only when speed exceeds a near-zero threshold
guarding division by zero, by normalize(velocity) * (-dragCoefficient *
speed^2) * dt, then position advances by velocity * dt; no-op when inactive. -/
def ballUpdateSpec (b : Ball) (dt : ℝ) (gravity : Vec3) (dragCoefficient : ℝ) : Ball :=
  if b.isActive = false then b
  else
    let v1 := b.vel.addScaled gravity dt
    let v2 :=
      if 0.0001 < v1.length then
        v1.addScaled (Vec3.smul (-(dragCoefficient * (v1.length * v1.length))) v1.normalize) dt
      else v1
    { pos := b.pos.addScaled v2 dt, vel := v2, isActive := b.isActive, isHit := b.isHit }

/-- One swinging-strike outcome: a pitch that finishes without contact after a
swing, on a pitch not called Ball; the successor state carries the resulting
counters into the next pitch. -/
def swingingStrikeOutcome (s s2 : Game) : Prop :=
  s.currentPitchCall ≠ "Ball" ∧ s.swingUsedThisPitch = true ∧
  s2.strikes = (s.finishPitchWithoutContact none).strikes ∧
  s2.outs = (s.finishPitchWithoutContact none).outs

/-- Claim C1, dirt clause, as stated: a pitch whose ball drops below ground
before reaching the plate is treated as in the dirt, i.e. a ball with no
strike change. -/
def ClaimC1Dirt : Prop :=
  ∀ (s : Game) (dt : ℝ), Reachable s → 0 ≤ dt →
    (s.state = GState.PITCHING ∨ s.state = GState.SWINGING) →
    s.ball.isActive = true → s.hadContactThisPitch = false →
    s.currentPitchHasCrossedPlate = false →
    (s.pitchMotion dt).ball.pos.y < 0 → (s.pitchMotion dt).ball.pos.z < plateZ →
    (Game.step (GInput.tick dt) s).strikes = s.strikes ∧
    (Game.step (GInput.tick dt) s).lastResult = "In the dirt"

/-- Claim C2 as stated: at no reachable step is contact resolved while the
contact window of the swing is closed. -/
def ClaimC2Window : Prop :=
  ∀ (s : Game) (a : AimInput) (r : ℝ), Reachable s → a.valid → 0 ≤ r → r < 1 →
    (Game.step (GInput.swing a r) s).hadContactThisPitch = true →
    s.hadContactThisPitch = true ∨ Bat.isInContactWindow s.bat.startSwing

/-- Claim C3 as stated: whenever the ball-in-play tick ends with the ball at
ground level or beyond the maximum travel distance, the landing distance is
computed and points are awarded if the hit was fair. -/
def ClaimC3Landing : Prop :=
  ∀ (s : Game) (dt : ℝ), s.state = GState.BALL_IN_PLAY → s.ball.isActive = true →
    ((s.ball.update dt gravityVec flightDragCoeff).pos.y ≤ 0 ∨
      150 * 150 < (s.ball.update dt gravityVec flightDragCoeff).pos.lengthSq) →
    (s.updateBallInPlay dt).lastHitDistanceFeet =
      (let p := (s.ball.update dt gravityVec flightDragCoeff).pos
       Real.sqrt (p.x * p.x + (p.z - plateZ) * (p.z - plateZ)) * FT_PER_M) ∧
    (s.lastWasFairHit = true →
      (s.updateBallInPlay dt).score = s.score +
        jsRound ((s.updateBallInPlay dt).lastHitDistanceFeet * 0.5 +
          max 0 (s.lastExitMph - 60) * 1.1))

/-- Aim input whose reticle coincides with the projected ball position, so the
screen distance is zero. -/
def aimW : AimInput :=
  { projX := 0, projY := 0, innerWidth := 2, innerHeight := 2,
    rect := some ⟨0, 0, 1, 1⟩, reticleU := 1, reticleV := 1 }

/-- A mid-pitch state with the ball over the plate, used to exercise the
screen-space contact path. -/
def gameW : Game :=
  { initGame with
    state := GState.PITCHING,
    ball := ⟨⟨0, 1.1, plateZ⟩, ⟨0, 0, 30⟩, true, false⟩ }

/-- Ball-in-play state that lands exactly 350 feet from the plate on the next
tick of length 1/10 with exit speed 100 mph. -/
def c3Ground : Game :=
  { initGame with
    state := GState.BALL_IN_PLAY, lastWasFairHit := true, lastExitMph := 100,
    ball := ⟨⟨0, 591 / 2000, 1 / 4 - 8750000 / 82021 + 197 / 500⟩,
             ⟨0, -101 / 50, -4⟩, true, true⟩ }

/-- Ball-in-play state that exceeds the maximum travel distance bound on the
next tick of length 1/10 while still airborne. -/
def c3Far : Game :=
  { initGame with
    state := GState.BALL_IN_PLAY, lastWasFairHit := true, lastExitMph := 100,
    ball := ⟨⟨0, 5, -200⟩, ⟨0, 0.98, -30⟩, true, true⟩ }


/-- Oracle draws for a deterministic center-zone fastball used in the
reachability traces. -/
def c2Oracle : PitchOracle :=
  { rSpeed := 8251 / 8382, rMoveX := 1 / 2, rMoveY := 5 / 6, rGravity := 0,
    rIntent := 0, rSide := 0, rX := 1 / 2, rY := 1 / 2 }

/-- Oracle draws for a heavier, sinking center-zone fastball used in the
dirt-pitch reachability trace. -/
def c1Oracle : PitchOracle :=
  { rSpeed := 8251 / 8382, rMoveX := 1 / 2, rMoveY := 0, rGravity := 48 / 49,
    rIntent := 0, rSide := 0, rX := 1 / 2, rY := 1 / 2 }
def c2dt1 : ℝ := (3897 / 24010)
def c2dt2 : ℝ := (18409590208233947 / 93216832170000000)
def c2dt3 : ℝ := (730915331927909945956638960128361699488499495749 / 6133779652619042663311056600000000000000000000000)
def c2dt4 : ℝ := (54716248957317209644465843534523382328921417666857673833625445104633642396671789684749914705399120079368459644619865987023225759587743844222735816349 / 583354103649856915406289474037200182549364456430074875934347492678795824799700000000000000000000000000000000000000000000000000000000000000000000000000)
def c1dt1 : ℝ := (3031 / 15000)
def c1dt2 : ℝ := (296799563194223 / 1485000000000000)
def c1dt3 : ℝ := (265493796193728563777658973863820549739920883 / 2377232550000000000000000000000000000000000000)

def C2T1 : Game := Game.step (GInput.pitch c2Oracle) initGame

def C2T2 : Game := Game.step (GInput.tick c2dt1) C2T1

def C2T3 : Game := Game.step (GInput.tick c2dt2) C2T2

def C2T4 : Game := Game.step (GInput.tick c2dt3) C2T3

def C2T5 : Game := Game.step (GInput.tick c2dt4) C2T4

def C1T1 : Game := Game.step (GInput.pitch c1Oracle) initGame

def C1T2 : Game := Game.step (GInput.swing aimW 0) C1T1

def C1T3 : Game := Game.step (GInput.tick c1dt1) C1T2

def C1T4 : Game := Game.step (GInput.tick c1dt2) C1T3

/-- Fresh-count state after a swing, feeding the three-strike chain. -/
def c4g0 : Game := { initGame with swingUsedThisPitch := true }

def c4g1 : Game := c4g0.finishPitchWithoutContact none

def c4g2 : Game := c4g1.finishPitchWithoutContact none

def c4g3 : Game := c4g2.finishPitchWithoutContact none

/-- Mid-pitch state used for the concrete plate-crossing instance. -/
def c6g : Game :=
  { initGame with
    state := GState.PITCHING,
    ball := ⟨⟨1 / 10, 1, plateZ - 1 / 20⟩, ⟨0, 0, 10⟩, true, false⟩ }

/-- Previous-frame ball position for the crossing instance, 0.05 before the
plate plane. -/
def c6prev : Vec3 := ⟨-1 / 10, 6 / 5, plateZ - 1 / 20⟩

/-- Current-frame ball position for the crossing instance, 0.05 past the plate
plane. -/
def c6curr : Vec3 := ⟨1 / 10, 1, plateZ + 1 / 20⟩

@[simp] theorem Vec3.add_x (a b : Vec3) : (a + b).x = a.x + b.x := rfl

@[simp] theorem Vec3.add_y (a b : Vec3) : (a + b).y = a.y + b.y := rfl

@[simp] theorem Vec3.add_z (a b : Vec3) : (a + b).z = a.z + b.z := rfl

@[simp] theorem Vec3.sub_x (a b : Vec3) : (a - b).x = a.x - b.x := rfl

@[simp] theorem Vec3.sub_y (a b : Vec3) : (a - b).y = a.y - b.y := rfl

@[simp] theorem Vec3.sub_z (a b : Vec3) : (a - b).z = a.z - b.z := rfl

@[simp] theorem Vec3.smul_x (k : ℝ) (v : Vec3) : (Vec3.smul k v).x = k * v.x := rfl

@[simp] theorem Vec3.smul_y (k : ℝ) (v : Vec3) : (Vec3.smul k v).y = k * v.y := rfl

@[simp] theorem Vec3.smul_z (k : ℝ) (v : Vec3) : (Vec3.smul k v).z = k * v.z := rfl

@[simp] theorem Vec3.addScaled_x (v w : Vec3) (k : ℝ) : (v.addScaled w k).x = v.x + k * w.x := rfl

@[simp] theorem Vec3.addScaled_y (v w : Vec3) (k : ℝ) : (v.addScaled w k).y = v.y + k * w.y := rfl

@[simp] theorem Vec3.addScaled_z (v w : Vec3) (k : ℝ) : (v.addScaled w k).z = v.z + k * w.z := rfl

/-- Length of an explicit vector with a rational Pythagorean certificate. -/
theorem Vec3.length_eval (vx vy vz sp : ℝ) (h : sp * sp = vx * vx + vy * vy + vz * vz)
    (h0 : 0 ≤ sp) : (Vec3.length ⟨vx, vy, vz⟩) = sp := by
  unfold Vec3.length
  rw [show vx * vx + vy * vy + vz * vz = sp ^ 2 by rw [← h]; ring]
  exact Real.sqrt_sq h0

/-- Evaluation of Ball.update on an active ball with positive drag, given a
rational certificate for the post-gravity speed. -/
theorem Ball.update_eval (b : Ball) (dt : ℝ) (g : Vec3) (c : ℝ)
    (v1x v1y v1z sp : ℝ)
    (hact : b.isActive = true) (hc : 0 < c)
    (hv1x : b.vel.x + dt * g.x = v1x)
    (hv1y : b.vel.y + dt * g.y = v1y)
    (hv1z : b.vel.z + dt * g.z = v1z)
    (hsp : sp * sp = v1x * v1x + v1y * v1y + v1z * v1z)
    (hthr : 0.0001 < sp) :
    b.update dt g c =
      { pos := ⟨b.pos.x + dt * (v1x * (1 - c * sp * dt)),
                b.pos.y + dt * (v1y * (1 - c * sp * dt)),
                b.pos.z + dt * (v1z * (1 - c * sp * dt))⟩,
        vel := ⟨v1x * (1 - c * sp * dt), v1y * (1 - c * sp * dt), v1z * (1 - c * sp * dt)⟩,
        isActive := true, isHit := b.isHit } := by
  have hsp0 : (0 : ℝ) < sp := lt_trans (by norm_num) hthr
  have hspne : sp ≠ 0 := ne_of_gt hsp0
  have hv1 : b.vel.addScaled g dt = ⟨v1x, v1y, v1z⟩ := by
    apply Vec3.ext <;> simp [Vec3.addScaled, hv1x, hv1y, hv1z]
  have hlen : (Vec3.length ⟨v1x, v1y, v1z⟩) = sp := Vec3.length_eval _ _ _ _ hsp hsp0.le
  have hv2 : (Vec3.mk v1x v1y v1z).addScaled
      (Vec3.smul (-(c * (sp * sp))) (Vec3.normalize ⟨v1x, v1y, v1z⟩)) dt =
      ⟨v1x * (1 - c * sp * dt), v1y * (1 - c * sp * dt), v1z * (1 - c * sp * dt)⟩ := by
    apply Vec3.ext <;>
      simp only [Vec3.addScaled, Vec3.normalize, Vec3.smul, hlen, Vec3.add_x, Vec3.add_y,
        Vec3.add_z] <;>
      field_simp <;> ring
  simp only [Ball.update, hact, Bool.true_eq_false, if_false, hv1, hlen, if_pos hc,
    if_pos hthr, hv2]
  apply Ball.ext <;>
    first
      | rfl
      | (apply Vec3.ext <;> simp [Vec3.addScaled])

theorem requestPitch_idle (o : PitchOracle) (s : Game) (h : s.state = GState.IDLE) :
    Game.step (GInput.pitch o) s = s.startPitch o := by
  simp [Game.step, Game.requestPitch, h]

/-- Evaluation of Game._startPitch for a strike-intent pitch aimed at the zone
center: the delivery direction is the plate axis. -/
theorem startPitch_center_eval (o : PitchOracle) (s : Game)
    (hIntent : o.rIntent < 0.7) (hX : o.rX = 1 / 2) (hY : o.rY = 1 / 2) :
    Game.startPitch o s =
      { s with
        state := GState.PITCHING, stateTimer := 0,
        pitchSpeedMph := randFloat 88 97 o.rSpeed, lastPitchType := "Fastball",
        lastPitchMph := randFloat 88 97 o.rSpeed,
        pitchMoveXPerSec := randFloat (-0.9) 0.9 o.rMoveX,
        pitchMoveYPerSec := randFloat (-1.0) 0.2 o.rMoveY,
        pitchGravityScale := randFloat 0.55 0.9 o.rGravity,
        ball := ⟨pitcherPosition, ⟨0, 0, randFloat 88 97 o.rSpeed * MPH_TO_MS⟩, true, false⟩,
        currentPitchCall := "—", currentPitchHasCrossedPlate := false,
        swingUsedThisPitch := false, hadContactThisPitch := false,
        lastResult := "Pitching" } := by
  have htgt : startPitchTarget o = (0, 1.1) := by
    unfold startPitchTarget
    rw [if_pos hIntent, hX, hY]
    norm_num [randFloat, randFloatSpread, zoneLeftX, zoneRightX, strikeZoneWidth,
      strikeZoneHeight, strikeZoneCenterY]
  have hdir : ((⟨(startPitchTarget o).1, (startPitchTarget o).2, strikeZoneCenterZ⟩ : Vec3) -
      pitcherPosition) = ⟨0, 0, 373 / 20⟩ := by
    rw [htgt]
    apply Vec3.ext <;> norm_num [pitcherPosition, strikeZoneCenterZ, plateZ]
  have hn1 : Vec3.normalize ⟨0, 0, 373 / 20⟩ = ⟨0, 0, 1⟩ := by
    unfold Vec3.normalize
    rw [Vec3.length_eval 0 0 (373 / 20) (373 / 20) (by norm_num) (by norm_num)]
    apply Vec3.ext <;> simp [Vec3.smul] <;> norm_num
  have hn2 : Vec3.normalize ⟨0, 0, 1⟩ = ⟨0, 0, 1⟩ := by
    unfold Vec3.normalize
    rw [Vec3.length_eval 0 0 1 1 (by norm_num) (by norm_num)]
    apply Vec3.ext <;> simp [Vec3.smul]
  simp only [Game.startPitch, Ball.startPitch, hdir, hn1, hn2]
  apply Game.ext <;>
    first
      | rfl
      | (apply Ball.ext <;>
          first
            | rfl
            | (apply Vec3.ext <;> simp [Vec3.smul]))

theorem checkPlateCrossing_nocross (s : Game) (prev curr : Vec3) (h : curr.z < plateZ) :
    Game.checkPlateCrossing s prev curr = s := by
  unfold Game.checkPlateCrossing
  split_ifs with h1 h2
  · rfl
  · exact absurd h2.2 (not_le.mpr h)
  · rfl

theorem game_update_pitching (dt : ℝ) (s : Game)
    (h : s.state = GState.PITCHING ∨ s.state = GState.SWINGING) :
    Game.update dt s =
      { (Game.updatePitching dt { s with stateTimer := s.stateTimer + dt }) with
        bat := (Game.updatePitching dt { s with stateTimer := s.stateTimer + dt }).bat.update dt } := by
  rcases h with h | h <;>
    (unfold Game.update; dsimp only; rw [h])

/-- Evaluation of one pitching tick that neither crosses the plate nor
finishes the pitch, given rational certificates for the integration. -/
theorem pitch_tick_eval (s : Game) (dt gsv my vy vz py pz sp vy2 vz2 vy3 y2 z2 : ℝ)
    (hstate : s.state = GState.PITCHING ∨ s.state = GState.SWINGING)
    (hball : s.ball = ⟨⟨0, py, pz⟩, ⟨0, vy, vz⟩, true, false⟩)
    (hgs : s.pitchGravityScale = gsv)
    (hmx : s.pitchMoveXPerSec = 0) (hmy : s.pitchMoveYPerSec = my)
    (hhad : s.hadContactThisPitch = false)
    (hsp : sp * sp = (vy + dt * (gsv * -9.8)) * (vy + dt * (gsv * -9.8)) + vz * vz)
    (hthr : 0.0001 < sp)
    (hvy2 : vy2 = (vy + dt * (gsv * -9.8)) * (1 - pitchDragCoeff * sp * dt))
    (hvz2 : vz2 = vz * (1 - pitchDragCoeff * sp * dt))
    (hvy3 : vy3 = vy2 + my * dt)
    (hy2 : y2 = py + dt * vy2) (hz2 : z2 = pz + dt * vz2)
    (hnc : z2 < plateZ)
    (hz14 : z2 ≤ strikeZoneCenterZ + 1.0) (hy0 : 0 ≤ y2) :
    Game.step (GInput.tick dt) s =
      { s with
        stateTimer := s.stateTimer + dt,
        ball := ⟨⟨0, y2, z2⟩, ⟨0, vy3, vz2⟩, true, false⟩,
        bat := s.bat.update dt } := by
  subst hvy2
  subst hvz2
  subst hvy3
  subst hy2
  subst hz2
  have hB1 : s.ball.update dt (Vec3.smul gsv gravityVec) pitchDragCoeff =
      ⟨⟨0, py + dt * ((vy + dt * (gsv * -9.8)) * (1 - pitchDragCoeff * sp * dt)),
          pz + dt * (vz * (1 - pitchDragCoeff * sp * dt))⟩,
        ⟨0, (vy + dt * (gsv * -9.8)) * (1 - pitchDragCoeff * sp * dt),
          vz * (1 - pitchDragCoeff * sp * dt)⟩, true, false⟩ := by
    rw [Ball.update_eval s.ball dt (Vec3.smul gsv gravityVec) pitchDragCoeff 0
      (vy + dt * (gsv * -9.8)) vz sp
      (by rw [hball]) (by norm_num [pitchDragCoeff])
      (by rw [hball]; simp [Vec3.smul, gravityVec])
      (by rw [hball]; simp [Vec3.smul, gravityVec])
      (by rw [hball]; simp [Vec3.smul, gravityVec])
      (by rw [hsp]; ring) hthr]
    rw [hball]
    apply Ball.ext <;>
      first
        | rfl
        | (apply Vec3.ext <;> (dsimp only; try ring))
  have hUP : Game.updatePitching dt { s with stateTimer := s.stateTimer + dt } =
      { s with
        stateTimer := s.stateTimer + dt,
        ball := ⟨⟨0, py + dt * ((vy + dt * (gsv * -9.8)) * (1 - pitchDragCoeff * sp * dt)),
            pz + dt * (vz * (1 - pitchDragCoeff * sp * dt))⟩,
          ⟨0, (vy + dt * (gsv * -9.8)) * (1 - pitchDragCoeff * sp * dt) + my * dt,
            vz * (1 - pitchDragCoeff * sp * dt)⟩, true, false⟩ } := by
    unfold Game.updatePitching Game.pitchMotion
    dsimp only
    rw [hgs, hmx, hmy, hB1]
    dsimp only
    have hb2 : (⟨⟨0, py + dt * ((vy + dt * (gsv * -9.8)) * (1 - pitchDragCoeff * sp * dt)),
            pz + dt * (vz * (1 - pitchDragCoeff * sp * dt))⟩,
          ⟨0 + 0 * dt, (vy + dt * (gsv * -9.8)) * (1 - pitchDragCoeff * sp * dt) + my * dt,
            vz * (1 - pitchDragCoeff * sp * dt)⟩, true, false⟩ : Ball) =
        ⟨⟨0, py + dt * ((vy + dt * (gsv * -9.8)) * (1 - pitchDragCoeff * sp * dt)),
            pz + dt * (vz * (1 - pitchDragCoeff * sp * dt))⟩,
          ⟨0, (vy + dt * (gsv * -9.8)) * (1 - pitchDragCoeff * sp * dt) + my * dt,
            vz * (1 - pitchDragCoeff * sp * dt)⟩, true, false⟩ := by
      apply Ball.ext <;>
        first
          | rfl
          | (apply Vec3.ext <;> (dsimp only; try ring))
    rw [hb2, checkPlateCrossing_nocross _ _ _ (by exact hnc)]
    rw [if_neg]
    rintro ⟨h1, -⟩
    rcases h1 with h1 | h1 | h1
    · exact absurd h1 (not_lt.mpr hz14)
    · exact absurd h1 (not_lt.mpr hy0)
    · simp at h1
  show Game.update dt s = _
  rw [game_update_pitching dt s hstate, hUP]

/-- Evaluation of one pitching tick on which the ball drops below ground
before the plate, finishing the pitch; with a swing used and no Ball call the
outcome is a swinging strike. -/
theorem pitch_tick_finish_eval (s : Game) (dt gsv my vy vz py pz sp : ℝ)
    (hstate : s.state = GState.PITCHING ∨ s.state = GState.SWINGING)
    (hball : s.ball = ⟨⟨0, py, pz⟩, ⟨0, vy, vz⟩, true, false⟩)
    (hgs : s.pitchGravityScale = gsv)
    (hmx : s.pitchMoveXPerSec = 0) (hmy : s.pitchMoveYPerSec = my)
    (hhad : s.hadContactThisPitch = false)
    (hsp : sp * sp = (vy + dt * (gsv * -9.8)) * (vy + dt * (gsv * -9.8)) + vz * vz)
    (hthr : 0.0001 < sp)
    (hfin : py + dt * ((vy + dt * (gsv * -9.8)) * (1 - pitchDragCoeff * sp * dt)) < 0)
    (hnc : pz + dt * (vz * (1 - pitchDragCoeff * sp * dt)) < plateZ)
    (hcall : ¬s.currentPitchCall = "Ball") (hsw : s.swingUsedThisPitch = true) :
    Game.step (GInput.tick dt) s =
      { s with
        state := GState.RESULT, stateTimer := 0,
        lastResult := "Strike (swinging)",
        strikes := if maxStrikes ≤ s.strikes + 1 then 0 else s.strikes + 1,
        outs := if maxStrikes ≤ s.strikes + 1 then s.outs + 1 else s.outs,
        ball := ⟨⟨0, -10, 0⟩,
          ⟨0, (vy + dt * (gsv * -9.8)) * (1 - pitchDragCoeff * sp * dt) + my * dt,
            vz * (1 - pitchDragCoeff * sp * dt)⟩, false, false⟩,
        bat := s.bat.update dt } := by
  have hB1 : s.ball.update dt (Vec3.smul gsv gravityVec) pitchDragCoeff =
      ⟨⟨0, py + dt * ((vy + dt * (gsv * -9.8)) * (1 - pitchDragCoeff * sp * dt)),
          pz + dt * (vz * (1 - pitchDragCoeff * sp * dt))⟩,
        ⟨0, (vy + dt * (gsv * -9.8)) * (1 - pitchDragCoeff * sp * dt),
          vz * (1 - pitchDragCoeff * sp * dt)⟩, true, false⟩ := by
    rw [Ball.update_eval s.ball dt (Vec3.smul gsv gravityVec) pitchDragCoeff 0
      (vy + dt * (gsv * -9.8)) vz sp
      (by rw [hball]) (by norm_num [pitchDragCoeff])
      (by rw [hball]; simp [Vec3.smul, gravityVec])
      (by rw [hball]; simp [Vec3.smul, gravityVec])
      (by rw [hball]; simp [Vec3.smul, gravityVec])
      (by rw [hsp]; ring) hthr]
    rw [hball]
    apply Ball.ext <;>
      first
        | rfl
        | (apply Vec3.ext <;> (dsimp only; try ring))
  have hUP : Game.updatePitching dt { s with stateTimer := s.stateTimer + dt } =
      { s with
        state := GState.RESULT, stateTimer := 0,
        lastResult := "Strike (swinging)",
        strikes := if maxStrikes ≤ s.strikes + 1 then 0 else s.strikes + 1,
        outs := if maxStrikes ≤ s.strikes + 1 then s.outs + 1 else s.outs,
        ball := ⟨⟨0, -10, 0⟩,
          ⟨0, (vy + dt * (gsv * -9.8)) * (1 - pitchDragCoeff * sp * dt) + my * dt,
            vz * (1 - pitchDragCoeff * sp * dt)⟩, false, false⟩ } := by
    unfold Game.updatePitching Game.pitchMotion
    dsimp only
    rw [hgs, hmx, hmy, hB1]
    dsimp only
    have hb2 : (⟨⟨0, py + dt * ((vy + dt * (gsv * -9.8)) * (1 - pitchDragCoeff * sp * dt)),
            pz + dt * (vz * (1 - pitchDragCoeff * sp * dt))⟩,
          ⟨0 + 0 * dt, (vy + dt * (gsv * -9.8)) * (1 - pitchDragCoeff * sp * dt) + my * dt,
            vz * (1 - pitchDragCoeff * sp * dt)⟩, true, false⟩ : Ball) =
        ⟨⟨0, py + dt * ((vy + dt * (gsv * -9.8)) * (1 - pitchDragCoeff * sp * dt)),
            pz + dt * (vz * (1 - pitchDragCoeff * sp * dt))⟩,
          ⟨0, (vy + dt * (gsv * -9.8)) * (1 - pitchDragCoeff * sp * dt) + my * dt,
            vz * (1 - pitchDragCoeff * sp * dt)⟩, true, false⟩ := by
      apply Ball.ext <;>
        first
          | rfl
          | (apply Vec3.ext <;> (dsimp only; try ring))
    rw [hb2, checkPlateCrossing_nocross _ _ _ (by exact hnc)]
    rw [if_pos (by exact ⟨Or.inr (Or.inl hfin), hhad⟩)]
    unfold Game.finishPitchWithoutContact Game.addStrike Game.enterResultState Ball.deactivate
    dsimp only
    rw [if_neg hcall, if_pos hsw]
    by_cases hms : maxStrikes ≤ s.strikes + 1
    · rw [if_pos hms]
      dsimp only
      apply Game.ext <;> simp [hms]
    · rw [if_neg hms]
      dsimp only
      apply Game.ext <;> simp [hms]
  show Game.update dt s = _
  rw [game_update_pitching dt s hstate, hUP]

theorem perfectFactor_zero : perfectFactor 0 = 1 := by
  unfold perfectFactor
  rw [if_pos (by norm_num [maxScreenDistForPerfect])]

/-- With the reticle exactly on the projected ball, screen distance is zero
and the contact quality is maximal. -/
theorem tryContact_aimW_eval (s : Game)
    (hact : s.ball.isActive = true)
    (hz : |s.ball.pos.z - plateZ| ≤ swingTimingWindowZ) :
    s.tryScreenSpaceContact aimW = some (s.ball.pos, 1) := by
  unfold Game.tryScreenSpaceContact
  rw [hact]
  rw [if_neg (by simp)]
  dsimp only [aimW]
  rw [if_neg (by rw [not_not]; exact hz)]
  rw [if_neg (by norm_num)]
  have hdist : Real.sqrt
      ((((0 + 1) / 2 * 2 - 0) / 1 - 1) * (((0 + 1) / 2 * 2 - 0) / 1 - 1) +
        (((-0 + 1) / 2 * 2 - 0) / 1 - 1) * (((-0 + 1) / 2 * 2 - 0) / 1 - 1)) = 0 := by
    rw [show ((((0 : ℝ) + 1) / 2 * 2 - 0) / 1 - 1) * (((0 + 1) / 2 * 2 - 0) / 1 - 1) +
        ((((-0 : ℝ) + 1) / 2 * 2 - 0) / 1 - 1) * (((-0 + 1) / 2 * 2 - 0) / 1 - 1) = 0 by norm_num]
    exact Real.sqrt_zero
  rw [hdist]
  rw [if_neg (by norm_num [maxScreenDistForHit])]
  rw [perfectFactor_zero]

theorem onContact_projections (bp : Vec3) (q r : ℝ) (s : Game) :
    (Game.onContact bp q r s).hadContactThisPitch = true ∧
    (Game.onContact bp q r s).state = GState.BALL_IN_PLAY ∧
    (Game.onContact bp q r s).strikes = s.strikes ∧
    (Game.onContact bp q r s).outs = s.outs ∧
    (Game.onContact bp q r s).score = s.score := by
  unfold Game.onContact
  dsimp only
  exact ⟨rfl, rfl, rfl, rfl, rfl⟩

/-- A swing with the reticle on the ball, during a pitch with the ball inside
the timing window, resolves contact. -/
theorem swing_contact_aimW (s : Game) (r : ℝ)
    (hstate : s.state = GState.PITCHING ∨ s.state = GState.SWINGING)
    (hsw : s.swingUsedThisPitch = false)
    (hact : s.ball.isActive = true)
    (hz : |s.ball.pos.z - plateZ| ≤ swingTimingWindowZ) :
    Game.step (GInput.swing aimW r) s =
      Game.onContact s.ball.pos 1 r
        { s with
          bat := s.bat.startSwing, swingUsedThisPitch := true,
          state := GState.SWINGING } := by
  have htc : Game.tryScreenSpaceContact aimW
      { s with
        bat := s.bat.startSwing, swingUsedThisPitch := true,
        state := GState.SWINGING } = some (s.ball.pos, 1) :=
    tryContact_aimW_eval _ hact hz
  show Game.handleSwing aimW r s = _
  unfold Game.handleSwing
  dsimp only
  rw [if_pos (show ({ s with bat := s.bat.startSwing } : Game).state = GState.PITCHING ∨
      ({ s with bat := s.bat.startSwing } : Game).state = GState.SWINGING from hstate)]
  rw [if_neg (show ¬({ s with bat := s.bat.startSwing } : Game).swingUsedThisPitch = true by
      simp [hsw])]
  rw [htc]

/-- A swing while the ball is outside the swing timing window starts the bat
swing, marks the swing used, and defers the outcome. -/
theorem swing_miss_eval (s : Game) (a : AimInput) (r : ℝ)
    (hstate : s.state = GState.PITCHING ∨ s.state = GState.SWINGING)
    (hsw : s.swingUsedThisPitch = false)
    (hact : s.ball.isActive = true)
    (hz : ¬|s.ball.pos.z - plateZ| ≤ swingTimingWindowZ) :
    Game.step (GInput.swing a r) s =
      { s with
        bat := s.bat.startSwing, swingUsedThisPitch := true,
        state := GState.SWINGING, lastResult := "Swinging..." } := by
  have htc : Game.tryScreenSpaceContact a
      { s with
        bat := s.bat.startSwing, swingUsedThisPitch := true,
        state := GState.SWINGING } = none := by
    unfold Game.tryScreenSpaceContact
    rw [hact]
    rw [if_neg (by simp)]
    rw [if_pos (by dsimp only; exact hz)]
  show Game.handleSwing a r s = _
  unfold Game.handleSwing
  dsimp only
  rw [if_pos (show ({ s with bat := s.bat.startSwing } : Game).state = GState.PITCHING ∨
      ({ s with bat := s.bat.startSwing } : Game).state = GState.SWINGING from hstate)]
  rw [if_neg (show ¬({ s with bat := s.bat.startSwing } : Game).swingUsedThisPitch = true by
      simp [hsw])]
  rw [htc]

theorem bat_update_inactive (dt : ℝ) : Bat.update ⟨false, 0⟩ dt = ⟨false, 0⟩ := by
  unfold Bat.update
  simp

theorem bat_start_inactive : Bat.startSwing ⟨false, 0⟩ = ⟨true, 0⟩ := by
  unfold Bat.startSwing
  simp

/-- Evaluation of the motion phase of a pitching tick that does not cross the
plate. -/
theorem pitch_motion_eval (s : Game) (dt gsv my vy vz py pz sp : ℝ)
    (hball : s.ball = ⟨⟨0, py, pz⟩, ⟨0, vy, vz⟩, true, false⟩)
    (hgs : s.pitchGravityScale = gsv)
    (hmx : s.pitchMoveXPerSec = 0) (hmy : s.pitchMoveYPerSec = my)
    (hsp : sp * sp = (vy + dt * (gsv * -9.8)) * (vy + dt * (gsv * -9.8)) + vz * vz)
    (hthr : 0.0001 < sp)
    (hnc : pz + dt * (vz * (1 - pitchDragCoeff * sp * dt)) < plateZ) :
    Game.pitchMotion dt s =
      { s with
        ball := ⟨⟨0, py + dt * ((vy + dt * (gsv * -9.8)) * (1 - pitchDragCoeff * sp * dt)),
            pz + dt * (vz * (1 - pitchDragCoeff * sp * dt))⟩,
          ⟨0, (vy + dt * (gsv * -9.8)) * (1 - pitchDragCoeff * sp * dt) + my * dt,
            vz * (1 - pitchDragCoeff * sp * dt)⟩, true, false⟩ } := by
  have hB1 : s.ball.update dt (Vec3.smul gsv gravityVec) pitchDragCoeff =
      ⟨⟨0, py + dt * ((vy + dt * (gsv * -9.8)) * (1 - pitchDragCoeff * sp * dt)),
          pz + dt * (vz * (1 - pitchDragCoeff * sp * dt))⟩,
        ⟨0, (vy + dt * (gsv * -9.8)) * (1 - pitchDragCoeff * sp * dt),
          vz * (1 - pitchDragCoeff * sp * dt)⟩, true, false⟩ := by
    rw [Ball.update_eval s.ball dt (Vec3.smul gsv gravityVec) pitchDragCoeff 0
      (vy + dt * (gsv * -9.8)) vz sp
      (by rw [hball]) (by norm_num [pitchDragCoeff])
      (by rw [hball]; simp [Vec3.smul, gravityVec])
      (by rw [hball]; simp [Vec3.smul, gravityVec])
      (by rw [hball]; simp [Vec3.smul, gravityVec])
      (by rw [hsp]; ring) hthr]
    rw [hball]
    apply Ball.ext <;>
      first
        | rfl
        | (apply Vec3.ext <;> (dsimp only; try ring))
  unfold Game.pitchMotion
  dsimp only
  rw [hgs, hmx, hmy, hB1]
  dsimp only
  have hb2 : (⟨⟨0, py + dt * ((vy + dt * (gsv * -9.8)) * (1 - pitchDragCoeff * sp * dt)),
          pz + dt * (vz * (1 - pitchDragCoeff * sp * dt))⟩,
        ⟨0 + 0 * dt, (vy + dt * (gsv * -9.8)) * (1 - pitchDragCoeff * sp * dt) + my * dt,
          vz * (1 - pitchDragCoeff * sp * dt)⟩, true, false⟩ : Ball) =
      ⟨⟨0, py + dt * ((vy + dt * (gsv * -9.8)) * (1 - pitchDragCoeff * sp * dt)),
          pz + dt * (vz * (1 - pitchDragCoeff * sp * dt))⟩,
        ⟨0, (vy + dt * (gsv * -9.8)) * (1 - pitchDragCoeff * sp * dt) + my * dt,
          vz * (1 - pitchDragCoeff * sp * dt)⟩, true, false⟩ := by
    apply Ball.ext <;>
      first
        | rfl
        | (apply Vec3.ext <;> (dsimp only; try ring))
  rw [hb2, checkPlateCrossing_nocross _ _ _ (by exact hnc)]

theorem C2T1_eval : C2T1 =
    { initGame with
      state := GState.PITCHING, stateTimer := 0,
      pitchSpeedMph := (270625 / 2794), lastPitchType := "Fastball",
      lastPitchMph := (270625 / 2794),
      pitchMoveXPerSec := 0, pitchMoveYPerSec := 0, pitchGravityScale := (11 / 20),
      ball := ⟨⟨(0), (11 / 10), (-92 / 5)⟩, ⟨(0), (0), (433 / 10)⟩, true, false⟩,
      currentPitchCall := "—", currentPitchHasCrossedPlate := false,
      swingUsedThisPitch := false, hadContactThisPitch := false,
      lastResult := "Pitching" } := by
  unfold C2T1
  rw [requestPitch_idle c2Oracle initGame rfl]
  rw [startPitch_center_eval c2Oracle initGame (by norm_num [c2Oracle])
    (by norm_num [c2Oracle]) (by norm_num [c2Oracle])]
  apply Game.ext <;>
    first
      | rfl
      | (norm_num [c2Oracle, randFloat, MPH_TO_MS]; done)
      | (apply Ball.ext <;>
          first
            | rfl
            | (apply Vec3.ext <;> norm_num [pitcherPosition, c2Oracle, randFloat, MPH_TO_MS])
            | skip)

theorem C2T1_state : C2T1.state = GState.PITCHING := by
  simp only [C2T1_eval, initGame]

theorem C2T1_ball : C2T1.ball = ⟨⟨(0), (11 / 10), (-92 / 5)⟩, ⟨(0), (0), (433 / 10)⟩, true, false⟩ := by
  simp only [C2T1_eval, initGame]

theorem C2T1_gs : C2T1.pitchGravityScale = (11 / 20) := by
  simp only [C2T1_eval, initGame]

theorem C2T1_mx : C2T1.pitchMoveXPerSec = 0 := by
  simp only [C2T1_eval, initGame]

theorem C2T1_my : C2T1.pitchMoveYPerSec = (0) := by
  simp only [C2T1_eval, initGame]

theorem C2T1_had : C2T1.hadContactThisPitch = false := by
  simp only [C2T1_eval, initGame]

theorem C2T1_sw : C2T1.swingUsedThisPitch = false := by
  simp only [C2T1_eval, initGame]

theorem C2T1_call : C2T1.currentPitchCall = "—" := by
  simp only [C2T1_eval, initGame]

theorem C2T1_crossed : C2T1.currentPitchHasCrossedPlate = false := by
  simp only [C2T1_eval, initGame]

theorem C2T1_strikes : C2T1.strikes = 0 := by
  simp only [C2T1_eval, initGame]

theorem C2T1_outs : C2T1.outs = 0 := by
  simp only [C2T1_eval, initGame]

theorem C2T1_bat : C2T1.bat = ⟨false, 0⟩ := by
  simp only [C2T1_eval, initGame]

set_option maxHeartbeats 4000000 in
theorem C2T2_eval : C2T2 =
    { C2T1 with
      stateTimer := C2T1.stateTimer + c2dt1,
      ball := ⟨⟨(0), (67681805965657810399 / 69206436005000000000), (-174571434738159701 / 14123762450000000)⟩, ⟨(0), (-2167121796213033 / 2882400500000000), (21890119153667 / 588245000000)⟩, true, false⟩,
      bat := C2T1.bat.update c2dt1 } := by
  unfold C2T2
  exact pitch_tick_eval C2T1 c2dt1 (11 / 20) (0) (0) (433 / 10)
    (11 / 10) (-92 / 5) (2122133 / 49000) (-2167121796213033 / 2882400500000000) (21890119153667 / 588245000000)
    (-2167121796213033 / 2882400500000000) (67681805965657810399 / 69206436005000000000) (-174571434738159701 / 14123762450000000)
    (Or.inl C2T1_state) C2T1_ball C2T1_gs C2T1_mx C2T1_my C2T1_had
    (by norm_num [c2dt1]) (by norm_num [c2dt1])
    (by norm_num [pitchDragCoeff, c2dt1]) (by norm_num [pitchDragCoeff, c2dt1])
    (by norm_num [c2dt1])
    (by norm_num [c2dt1]) (by norm_num [c2dt1])
    (by norm_num [plateZ, c2dt1]) (by norm_num [strikeZoneCenterZ, plateZ, c2dt1])
    (by norm_num [c2dt1])

theorem C2T2_state : C2T2.state = GState.PITCHING := by
  simp only [C2T2_eval]; exact C2T1_state

theorem C2T2_ball : C2T2.ball = ⟨⟨(0), (67681805965657810399 / 69206436005000000000), (-174571434738159701 / 14123762450000000)⟩, ⟨(0), (-2167121796213033 / 2882400500000000), (21890119153667 / 588245000000)⟩, true, false⟩ := by
  simp only [C2T2_eval]

theorem C2T2_gs : C2T2.pitchGravityScale = (11 / 20) := by
  simp only [C2T2_eval]; exact C2T1_gs

theorem C2T2_mx : C2T2.pitchMoveXPerSec = 0 := by
  simp only [C2T2_eval]; exact C2T1_mx

theorem C2T2_my : C2T2.pitchMoveYPerSec = (0) := by
  simp only [C2T2_eval]; exact C2T1_my

theorem C2T2_had : C2T2.hadContactThisPitch = false := by
  simp only [C2T2_eval]; exact C2T1_had

theorem C2T2_sw : C2T2.swingUsedThisPitch = false := by
  simp only [C2T2_eval]; exact C2T1_sw

theorem C2T2_call : C2T2.currentPitchCall = "—" := by
  simp only [C2T2_eval]; exact C2T1_call

theorem C2T2_crossed : C2T2.currentPitchHasCrossedPlate = false := by
  simp only [C2T2_eval]; exact C2T1_crossed

theorem C2T2_strikes : C2T2.strikes = 0 := by
  simp only [C2T2_eval]; exact C2T1_strikes

theorem C2T2_outs : C2T2.outs = 0 := by
  simp only [C2T2_eval]; exact C2T1_outs

theorem C2T2_bat : C2T2.bat = ⟨false, 0⟩ := by
  simp only [C2T2_eval, C2T1_bat]; exact bat_update_inactive _

set_option maxHeartbeats 4000000 in
theorem C2T3_eval : C2T3 =
    { C2T2 with
      stateTimer := C2T2.stateTimer + c2dt2,
      ball := ⟨⟨(0), (71290746473082977117976571953858175479417238872786910311159785681 / 106080057225593729293494727196209800000000000000000000000000000000), (-769387056376664621209224850484483230134519484702119763686824041 / 126285782411421106301779437138345000000000000000000000000000000)⟩, ⟨(0), (-1762795800532018104954246903838989981119322313277 / 1137992514400564501541940000000000000000000000000), (42995019525171173291566997654609511734617617397 / 1354752993334005358978500000000000000000000000)⟩, true, false⟩,
      bat := C2T2.bat.update c2dt2 } := by
  unfold C2T3
  exact pitch_tick_eval C2T2 c2dt2 (11 / 20) (0) (-2167121796213033 / 2882400500000000) (21890119153667 / 588245000000)
    (67681805965657810399 / 69206436005000000000) (-174571434738159701 / 14123762450000000) (18409590208233947 / 494125800000000) (-1762795800532018104954246903838989981119322313277 / 1137992514400564501541940000000000000000000000000) (42995019525171173291566997654609511734617617397 / 1354752993334005358978500000000000000000000000)
    (-1762795800532018104954246903838989981119322313277 / 1137992514400564501541940000000000000000000000000) (71290746473082977117976571953858175479417238872786910311159785681 / 106080057225593729293494727196209800000000000000000000000000000000) (-769387056376664621209224850484483230134519484702119763686824041 / 126285782411421106301779437138345000000000000000000000000000000)
    (Or.inl C2T2_state) C2T2_ball C2T2_gs C2T2_mx C2T2_my C2T2_had
    (by norm_num [c2dt2]) (by norm_num [c2dt2])
    (by norm_num [pitchDragCoeff, c2dt2]) (by norm_num [pitchDragCoeff, c2dt2])
    (by norm_num [c2dt2])
    (by norm_num [c2dt2]) (by norm_num [c2dt2])
    (by norm_num [plateZ, c2dt2]) (by norm_num [strikeZoneCenterZ, plateZ, c2dt2])
    (by norm_num [c2dt2])

theorem C2T3_state : C2T3.state = GState.PITCHING := by
  simp only [C2T3_eval]; exact C2T2_state

theorem C2T3_ball : C2T3.ball = ⟨⟨(0), (71290746473082977117976571953858175479417238872786910311159785681 / 106080057225593729293494727196209800000000000000000000000000000000), (-769387056376664621209224850484483230134519484702119763686824041 / 126285782411421106301779437138345000000000000000000000000000000)⟩, ⟨(0), (-1762795800532018104954246903838989981119322313277 / 1137992514400564501541940000000000000000000000000), (42995019525171173291566997654609511734617617397 / 1354752993334005358978500000000000000000000000)⟩, true, false⟩ := by
  simp only [C2T3_eval]

theorem C2T3_gs : C2T3.pitchGravityScale = (11 / 20) := by
  simp only [C2T3_eval]; exact C2T2_gs

theorem C2T3_mx : C2T3.pitchMoveXPerSec = 0 := by
  simp only [C2T3_eval]; exact C2T2_mx

theorem C2T3_my : C2T3.pitchMoveYPerSec = (0) := by
  simp only [C2T3_eval]; exact C2T2_my

theorem C2T3_had : C2T3.hadContactThisPitch = false := by
  simp only [C2T3_eval]; exact C2T2_had

theorem C2T3_sw : C2T3.swingUsedThisPitch = false := by
  simp only [C2T3_eval]; exact C2T2_sw

theorem C2T3_call : C2T3.currentPitchCall = "—" := by
  simp only [C2T3_eval]; exact C2T2_call

theorem C2T3_crossed : C2T3.currentPitchHasCrossedPlate = false := by
  simp only [C2T3_eval]; exact C2T2_crossed

theorem C2T3_strikes : C2T3.strikes = 0 := by
  simp only [C2T3_eval]; exact C2T2_strikes

theorem C2T3_outs : C2T3.outs = 0 := by
  simp only [C2T3_eval]; exact C2T2_outs

theorem C2T3_bat : C2T3.bat = ⟨false, 0⟩ := by
  simp only [C2T3_eval, C2T2_bat]; exact bat_update_inactive _

set_option maxHeartbeats 4000000 in
theorem C2T4_eval : C2T4 =
    { C2T3 with
      stateTimer := C2T3.stateTimer + c2dt3,
      ball := ⟨⟨(0), (262325685527377013690670469332222422616039869898945011334624760538337803776766443492710881279774924371010746582876607098549395422379192193191800041842194136939803733335530034790932551985410881281 / 609039085503108433627925529306838694885466285316348368404236660304709216133814158229286114441880200000000000000000000000000000000000000000000000000000000000000000000000000000000000000000000000000), (-3766415788847724825698041817244202042091432058069941894233402287774600917558657905671727456010038219154246637235634339446908123288937661834200001442834280584131163218466552923825260413290030389 / 1450093060721686746733156022159139749727300679324638972391039667392164800318605138641157415337810000000000000000000000000000000000000000000000000000000000000000000000000000000000000000000000000)⟩, ⟨(0), (-201086201972145365567039597326216967119341162379783619462062844764209305475032556185242368072053539767036539056390332483040621851228560573116124531 / 99292625427627940870162120480876952315597088803607577051343380143111747000000000000000000000000000000000000000000000000000000000000000000000000000), (6934006964556736743691020597455757486873833185509779981450442922903769154311467454663529933519087578173673760565183878725538684525122778383314639 / 236411012922923668738481239240183219799040687627637088217484238435980350000000000000000000000000000000000000000000000000000000000000000000000000)⟩, true, false⟩,
      bat := C2T3.bat.update c2dt3 } := by
  unfold C2T4
  exact pitch_tick_eval C2T3 c2dt3 (11 / 20) (0) (-1762795800532018104954246903838989981119322313277 / 1137992514400564501541940000000000000000000000000) (42995019525171173291566997654609511734617617397 / 1354752993334005358978500000000000000000000000)
    (71290746473082977117976571953858175479417238872786910311159785681 / 106080057225593729293494727196209800000000000000000000000000000000) (-769387056376664621209224850484483230134519484702119763686824041 / 126285782411421106301779437138345000000000000000000000000000000) (18100903220097063955749706012590604440274016924137 / 568996257200282250770970000000000000000000000000) (-201086201972145365567039597326216967119341162379783619462062844764209305475032556185242368072053539767036539056390332483040621851228560573116124531 / 99292625427627940870162120480876952315597088803607577051343380143111747000000000000000000000000000000000000000000000000000000000000000000000000000) (6934006964556736743691020597455757486873833185509779981450442922903769154311467454663529933519087578173673760565183878725538684525122778383314639 / 236411012922923668738481239240183219799040687627637088217484238435980350000000000000000000000000000000000000000000000000000000000000000000000000)
    (-201086201972145365567039597326216967119341162379783619462062844764209305475032556185242368072053539767036539056390332483040621851228560573116124531 / 99292625427627940870162120480876952315597088803607577051343380143111747000000000000000000000000000000000000000000000000000000000000000000000000000) (262325685527377013690670469332222422616039869898945011334624760538337803776766443492710881279774924371010746582876607098549395422379192193191800041842194136939803733335530034790932551985410881281 / 609039085503108433627925529306838694885466285316348368404236660304709216133814158229286114441880200000000000000000000000000000000000000000000000000000000000000000000000000000000000000000000000000) (-3766415788847724825698041817244202042091432058069941894233402287774600917558657905671727456010038219154246637235634339446908123288937661834200001442834280584131163218466552923825260413290030389 / 1450093060721686746733156022159139749727300679324638972391039667392164800318605138641157415337810000000000000000000000000000000000000000000000000000000000000000000000000000000000000000000000000)
    (Or.inl C2T3_state) C2T3_ball C2T3_gs C2T3_mx C2T3_my C2T3_had
    (by norm_num [c2dt3]) (by norm_num [c2dt3])
    (by norm_num [pitchDragCoeff, c2dt3]) (by norm_num [pitchDragCoeff, c2dt3])
    (by norm_num [c2dt3])
    (by norm_num [c2dt3]) (by norm_num [c2dt3])
    (by norm_num [plateZ, c2dt3]) (by norm_num [strikeZoneCenterZ, plateZ, c2dt3])
    (by norm_num [c2dt3])

theorem C2T4_state : C2T4.state = GState.PITCHING := by
  simp only [C2T4_eval]; exact C2T3_state

theorem C2T4_ball : C2T4.ball = ⟨⟨(0), (262325685527377013690670469332222422616039869898945011334624760538337803776766443492710881279774924371010746582876607098549395422379192193191800041842194136939803733335530034790932551985410881281 / 609039085503108433627925529306838694885466285316348368404236660304709216133814158229286114441880200000000000000000000000000000000000000000000000000000000000000000000000000000000000000000000000000), (-3766415788847724825698041817244202042091432058069941894233402287774600917558657905671727456010038219154246637235634339446908123288937661834200001442834280584131163218466552923825260413290030389 / 1450093060721686746733156022159139749727300679324638972391039667392164800318605138641157415337810000000000000000000000000000000000000000000000000000000000000000000000000000000000000000000000000)⟩, ⟨(0), (-201086201972145365567039597326216967119341162379783619462062844764209305475032556185242368072053539767036539056390332483040621851228560573116124531 / 99292625427627940870162120480876952315597088803607577051343380143111747000000000000000000000000000000000000000000000000000000000000000000000000000), (6934006964556736743691020597455757486873833185509779981450442922903769154311467454663529933519087578173673760565183878725538684525122778383314639 / 236411012922923668738481239240183219799040687627637088217484238435980350000000000000000000000000000000000000000000000000000000000000000000000000)⟩, true, false⟩ := by
  simp only [C2T4_eval]

theorem C2T4_gs : C2T4.pitchGravityScale = (11 / 20) := by
  simp only [C2T4_eval]; exact C2T3_gs

theorem C2T4_mx : C2T4.pitchMoveXPerSec = 0 := by
  simp only [C2T4_eval]; exact C2T3_mx

theorem C2T4_my : C2T4.pitchMoveYPerSec = (0) := by
  simp only [C2T4_eval]; exact C2T3_my

theorem C2T4_had : C2T4.hadContactThisPitch = false := by
  simp only [C2T4_eval]; exact C2T3_had

theorem C2T4_sw : C2T4.swingUsedThisPitch = false := by
  simp only [C2T4_eval]; exact C2T3_sw

theorem C2T4_call : C2T4.currentPitchCall = "—" := by
  simp only [C2T4_eval]; exact C2T3_call

theorem C2T4_crossed : C2T4.currentPitchHasCrossedPlate = false := by
  simp only [C2T4_eval]; exact C2T3_crossed

theorem C2T4_strikes : C2T4.strikes = 0 := by
  simp only [C2T4_eval]; exact C2T3_strikes

theorem C2T4_outs : C2T4.outs = 0 := by
  simp only [C2T4_eval]; exact C2T3_outs

theorem C2T4_bat : C2T4.bat = ⟨false, 0⟩ := by
  simp only [C2T4_eval, C2T3_bat]; exact bat_update_inactive _

set_option maxHeartbeats 4000000 in
theorem C2T5_eval : C2T5 =
    { C2T4 with
      stateTimer := C2T4.stateTimer + c2dt4,
      ball := ⟨⟨(0), (942486091528274220856905915315517059649568624301310877205206808790078140619811741210696278531277394314480041792688876350985660484693845865921659564938333681250259252168867719283068984621282522942876676997946086499911140506099506317742053992498972286326286420724949434845056507324472708269123100464122097845663147235343097188556890083401376620306720720413058995709625770862489925814727382289573922017691850138563249217692479654588997878421232537103726174873480296389626625863657246452631256496377197443069421271193754317413653913089209012430030226383143234298176784200542371223429301437945418419 / 4565072919534712727468991876293088373177818220953940111500635981234947858822528366802872151534822382666148544169099209898816415980237027729175575058599417405142049333623105790109885653793709477160069782184582495692918642883589153313885428750494115742325269846882768788137799247890828290927638950000000000000000000000000000000000000000000000000000000000000000000000000000000000000000000000000000000000000000000000000000000000000000000000000000000000000000000000000000000000000000000000000000000000000000000000000000000000000000000000000000000000000000000000000000000000000000000000000000000000000), (36750848456438328387220082537638381899227980935967587106457903144560707895788169956279704995134199138197074662503837628404355156037460566831315989918251206731287277708789044024126282437065218828741686129508867073210547986405341003295523031973165991626345666617838010122539399530017473061806448281759455485308577908306890146431652949295449203305337829568625425754680437532038437396241455326372525384639466391407935910922123442684322188356182257698622375079984400545967059807513344598354921243305397733188354147697141188755057205831104608945777558781935036938063989445138356661615713792346399 / 20731294451098007340340834667569529768101101095157801423787291841388065964377537078600199220272817242382968159300037696329487393671718612164604675724832216656379031377462728129398104574567763221965454515425397572183437873645657164131865020472427406352761546552357527982827620437669357834946617250000000000000000000000000000000000000000000000000000000000000000000000000000000000000000000000000000000000000000000000000000000000000000000000000000000000000000000000000000000000000000000000000000000000000000000000000000000000000000000000000000000000000000000000000000000000000000000000000000000000)⟩, ⟨(0), (-18710801889272269726267991741987069115907164219111171733889116581337811102737555153263302097537461488594414020044892461649095200711595888601323018527893130565531658485980888830677256733337393602670137471887630953004839862257661303628286873634436347944133280184229008202485448845080880897144950318248890684918393914552587022036536536348257591243304225145724543502434084457075088653849363808842514556551324521406038223352558666936563609054530771569 / 7825560651708003879463921543975114686449880063856510740403982092461166163357045550506288739107023591489346022929578982819989931244375669451419815741170297333907766008656770264601473445989149817942033145721291683397203500000000000000000000000000000000000000000000000000000000000000000000000000000000000000000000000000000000000000000000000000000000000000000000000000000000000000000000000000000000000000000000000000000000000000000000000000000000000), (984779046803803669803578512736161532416166537847956407046795609544095321196713429119121163028287446768127053686573287455215536879557678347438053606731217398185876762420046780561960880701968084351059866941454260684465255908297963348857203875496649891796488430748895168551865728688467415639207911486783720258862837608030895896659817702539873223331801323459186500128109708267109929149966516254869187186911816916107274913292561417713874160764777451 / 35538096537573045140684781323556713484336611299164888224770377392369516062951720619271678218880519979699323682111390793540321247394183086040851456806232084222792148387936708999795682162978249173222994560844398011757942500000000000000000000000000000000000000000000000000000000000000000000000000000000000000000000000000000000000000000000000000000000000000000000000000000000000000000000000000000000000000000000000000000000000000000000000000000000)⟩, true, false⟩,
      bat := C2T4.bat.update c2dt4 } := by
  unfold C2T5
  exact pitch_tick_eval C2T4 c2dt4 (11 / 20) (0) (-201086201972145365567039597326216967119341162379783619462062844764209305475032556185242368072053539767036539056390332483040621851228560573116124531 / 99292625427627940870162120480876952315597088803607577051343380143111747000000000000000000000000000000000000000000000000000000000000000000000000000) (6934006964556736743691020597455757486873833185509779981450442922903769154311467454663529933519087578173673760565183878725538684525122778383314639 / 236411012922923668738481239240183219799040687627637088217484238435980350000000000000000000000000000000000000000000000000000000000000000000000000)
    (262325685527377013690670469332222422616039869898945011334624760538337803776766443492710881279774924371010746582876607098549395422379192193191800041842194136939803733335530034790932551985410881281 / 609039085503108433627925529306838694885466285316348368404236660304709216133814158229286114441880200000000000000000000000000000000000000000000000000000000000000000000000000000000000000000000000000) (-3766415788847724825698041817244202042091432058069941894233402287774600917558657905671727456010038219154246637235634339446908123288937661834200001442834280584131163218466552923825260413290030389 / 1450093060721686746733156022159139749727300679324638972391039667392164800318605138641157415337810000000000000000000000000000000000000000000000000000000000000000000000000000000000000000000000000) (151723006391465956688703221692929429570286343932139495774117141596057372865489219375492698475331155298018155554926788450393511956094211513805307615959 / 5153760081719735978498891015435994191619086990282488523141156397904371630000000000000000000000000000000000000000000000000000000000000000000000000000) (-18710801889272269726267991741987069115907164219111171733889116581337811102737555153263302097537461488594414020044892461649095200711595888601323018527893130565531658485980888830677256733337393602670137471887630953004839862257661303628286873634436347944133280184229008202485448845080880897144950318248890684918393914552587022036536536348257591243304225145724543502434084457075088653849363808842514556551324521406038223352558666936563609054530771569 / 7825560651708003879463921543975114686449880063856510740403982092461166163357045550506288739107023591489346022929578982819989931244375669451419815741170297333907766008656770264601473445989149817942033145721291683397203500000000000000000000000000000000000000000000000000000000000000000000000000000000000000000000000000000000000000000000000000000000000000000000000000000000000000000000000000000000000000000000000000000000000000000000000000000000000) (984779046803803669803578512736161532416166537847956407046795609544095321196713429119121163028287446768127053686573287455215536879557678347438053606731217398185876762420046780561960880701968084351059866941454260684465255908297963348857203875496649891796488430748895168551865728688467415639207911486783720258862837608030895896659817702539873223331801323459186500128109708267109929149966516254869187186911816916107274913292561417713874160764777451 / 35538096537573045140684781323556713484336611299164888224770377392369516062951720619271678218880519979699323682111390793540321247394183086040851456806232084222792148387936708999795682162978249173222994560844398011757942500000000000000000000000000000000000000000000000000000000000000000000000000000000000000000000000000000000000000000000000000000000000000000000000000000000000000000000000000000000000000000000000000000000000000000000000000000000)
    (-18710801889272269726267991741987069115907164219111171733889116581337811102737555153263302097537461488594414020044892461649095200711595888601323018527893130565531658485980888830677256733337393602670137471887630953004839862257661303628286873634436347944133280184229008202485448845080880897144950318248890684918393914552587022036536536348257591243304225145724543502434084457075088653849363808842514556551324521406038223352558666936563609054530771569 / 7825560651708003879463921543975114686449880063856510740403982092461166163357045550506288739107023591489346022929578982819989931244375669451419815741170297333907766008656770264601473445989149817942033145721291683397203500000000000000000000000000000000000000000000000000000000000000000000000000000000000000000000000000000000000000000000000000000000000000000000000000000000000000000000000000000000000000000000000000000000000000000000000000000000000) (942486091528274220856905915315517059649568624301310877205206808790078140619811741210696278531277394314480041792688876350985660484693845865921659564938333681250259252168867719283068984621282522942876676997946086499911140506099506317742053992498972286326286420724949434845056507324472708269123100464122097845663147235343097188556890083401376620306720720413058995709625770862489925814727382289573922017691850138563249217692479654588997878421232537103726174873480296389626625863657246452631256496377197443069421271193754317413653913089209012430030226383143234298176784200542371223429301437945418419 / 4565072919534712727468991876293088373177818220953940111500635981234947858822528366802872151534822382666148544169099209898816415980237027729175575058599417405142049333623105790109885653793709477160069782184582495692918642883589153313885428750494115742325269846882768788137799247890828290927638950000000000000000000000000000000000000000000000000000000000000000000000000000000000000000000000000000000000000000000000000000000000000000000000000000000000000000000000000000000000000000000000000000000000000000000000000000000000000000000000000000000000000000000000000000000000000000000000000000000000000) (36750848456438328387220082537638381899227980935967587106457903144560707895788169956279704995134199138197074662503837628404355156037460566831315989918251206731287277708789044024126282437065218828741686129508867073210547986405341003295523031973165991626345666617838010122539399530017473061806448281759455485308577908306890146431652949295449203305337829568625425754680437532038437396241455326372525384639466391407935910922123442684322188356182257698622375079984400545967059807513344598354921243305397733188354147697141188755057205831104608945777558781935036938063989445138356661615713792346399 / 20731294451098007340340834667569529768101101095157801423787291841388065964377537078600199220272817242382968159300037696329487393671718612164604675724832216656379031377462728129398104574567763221965454515425397572183437873645657164131865020472427406352761546552357527982827620437669357834946617250000000000000000000000000000000000000000000000000000000000000000000000000000000000000000000000000000000000000000000000000000000000000000000000000000000000000000000000000000000000000000000000000000000000000000000000000000000000000000000000000000000000000000000000000000000000000000000000000000000000)
    (Or.inl C2T4_state) C2T4_ball C2T4_gs C2T4_mx C2T4_my C2T4_had
    (by norm_num [c2dt4]) (by norm_num [c2dt4])
    (by norm_num [pitchDragCoeff, c2dt4]) (by norm_num [pitchDragCoeff, c2dt4])
    (by norm_num [c2dt4])
    (by norm_num [c2dt4]) (by norm_num [c2dt4])
    (by norm_num [plateZ, c2dt4]) (by norm_num [strikeZoneCenterZ, plateZ, c2dt4])
    (by norm_num [c2dt4])

theorem C2T5_state : C2T5.state = GState.PITCHING := by
  simp only [C2T5_eval]; exact C2T4_state

theorem C2T5_ball : C2T5.ball = ⟨⟨(0), (942486091528274220856905915315517059649568624301310877205206808790078140619811741210696278531277394314480041792688876350985660484693845865921659564938333681250259252168867719283068984621282522942876676997946086499911140506099506317742053992498972286326286420724949434845056507324472708269123100464122097845663147235343097188556890083401376620306720720413058995709625770862489925814727382289573922017691850138563249217692479654588997878421232537103726174873480296389626625863657246452631256496377197443069421271193754317413653913089209012430030226383143234298176784200542371223429301437945418419 / 4565072919534712727468991876293088373177818220953940111500635981234947858822528366802872151534822382666148544169099209898816415980237027729175575058599417405142049333623105790109885653793709477160069782184582495692918642883589153313885428750494115742325269846882768788137799247890828290927638950000000000000000000000000000000000000000000000000000000000000000000000000000000000000000000000000000000000000000000000000000000000000000000000000000000000000000000000000000000000000000000000000000000000000000000000000000000000000000000000000000000000000000000000000000000000000000000000000000000000000), (36750848456438328387220082537638381899227980935967587106457903144560707895788169956279704995134199138197074662503837628404355156037460566831315989918251206731287277708789044024126282437065218828741686129508867073210547986405341003295523031973165991626345666617838010122539399530017473061806448281759455485308577908306890146431652949295449203305337829568625425754680437532038437396241455326372525384639466391407935910922123442684322188356182257698622375079984400545967059807513344598354921243305397733188354147697141188755057205831104608945777558781935036938063989445138356661615713792346399 / 20731294451098007340340834667569529768101101095157801423787291841388065964377537078600199220272817242382968159300037696329487393671718612164604675724832216656379031377462728129398104574567763221965454515425397572183437873645657164131865020472427406352761546552357527982827620437669357834946617250000000000000000000000000000000000000000000000000000000000000000000000000000000000000000000000000000000000000000000000000000000000000000000000000000000000000000000000000000000000000000000000000000000000000000000000000000000000000000000000000000000000000000000000000000000000000000000000000000000000)⟩, ⟨(0), (-18710801889272269726267991741987069115907164219111171733889116581337811102737555153263302097537461488594414020044892461649095200711595888601323018527893130565531658485980888830677256733337393602670137471887630953004839862257661303628286873634436347944133280184229008202485448845080880897144950318248890684918393914552587022036536536348257591243304225145724543502434084457075088653849363808842514556551324521406038223352558666936563609054530771569 / 7825560651708003879463921543975114686449880063856510740403982092461166163357045550506288739107023591489346022929578982819989931244375669451419815741170297333907766008656770264601473445989149817942033145721291683397203500000000000000000000000000000000000000000000000000000000000000000000000000000000000000000000000000000000000000000000000000000000000000000000000000000000000000000000000000000000000000000000000000000000000000000000000000000000000), (984779046803803669803578512736161532416166537847956407046795609544095321196713429119121163028287446768127053686573287455215536879557678347438053606731217398185876762420046780561960880701968084351059866941454260684465255908297963348857203875496649891796488430748895168551865728688467415639207911486783720258862837608030895896659817702539873223331801323459186500128109708267109929149966516254869187186911816916107274913292561417713874160764777451 / 35538096537573045140684781323556713484336611299164888224770377392369516062951720619271678218880519979699323682111390793540321247394183086040851456806232084222792148387936708999795682162978249173222994560844398011757942500000000000000000000000000000000000000000000000000000000000000000000000000000000000000000000000000000000000000000000000000000000000000000000000000000000000000000000000000000000000000000000000000000000000000000000000000000000)⟩, true, false⟩ := by
  simp only [C2T5_eval]

theorem C2T5_gs : C2T5.pitchGravityScale = (11 / 20) := by
  simp only [C2T5_eval]; exact C2T4_gs

theorem C2T5_mx : C2T5.pitchMoveXPerSec = 0 := by
  simp only [C2T5_eval]; exact C2T4_mx

theorem C2T5_my : C2T5.pitchMoveYPerSec = (0) := by
  simp only [C2T5_eval]; exact C2T4_my

theorem C2T5_had : C2T5.hadContactThisPitch = false := by
  simp only [C2T5_eval]; exact C2T4_had

theorem C2T5_sw : C2T5.swingUsedThisPitch = false := by
  simp only [C2T5_eval]; exact C2T4_sw

theorem C2T5_call : C2T5.currentPitchCall = "—" := by
  simp only [C2T5_eval]; exact C2T4_call

theorem C2T5_crossed : C2T5.currentPitchHasCrossedPlate = false := by
  simp only [C2T5_eval]; exact C2T4_crossed

theorem C2T5_strikes : C2T5.strikes = 0 := by
  simp only [C2T5_eval]; exact C2T4_strikes

theorem C2T5_outs : C2T5.outs = 0 := by
  simp only [C2T5_eval]; exact C2T4_outs

theorem C2T5_bat : C2T5.bat = ⟨false, 0⟩ := by
  simp only [C2T5_eval, C2T4_bat]; exact bat_update_inactive _

theorem C1T1_eval : C1T1 =
    { initGame with
      state := GState.PITCHING, stateTimer := 0,
      pitchSpeedMph := (270625 / 2794), lastPitchType := "Fastball",
      lastPitchMph := (270625 / 2794),
      pitchMoveXPerSec := 0, pitchMoveYPerSec := -1, pitchGravityScale := (25 / 28),
      ball := ⟨⟨(0), (11 / 10), (-92 / 5)⟩, ⟨(0), (0), (433 / 10)⟩, true, false⟩,
      currentPitchCall := "—", currentPitchHasCrossedPlate := false,
      swingUsedThisPitch := false, hadContactThisPitch := false,
      lastResult := "Pitching" } := by
  unfold C1T1
  rw [requestPitch_idle c1Oracle initGame rfl]
  rw [startPitch_center_eval c1Oracle initGame (by norm_num [c1Oracle])
    (by norm_num [c1Oracle]) (by norm_num [c1Oracle])]
  apply Game.ext <;>
    first
      | rfl
      | (norm_num [c1Oracle, randFloat, MPH_TO_MS]; done)
      | (apply Ball.ext <;>
          first
            | rfl
            | (apply Vec3.ext <;> norm_num [pitcherPosition, c1Oracle, randFloat, MPH_TO_MS])
            | skip)

theorem C1T1_state : C1T1.state = GState.PITCHING := by
  simp only [C1T1_eval, initGame]

theorem C1T1_ball : C1T1.ball = ⟨⟨(0), (11 / 10), (-92 / 5)⟩, ⟨(0), (0), (433 / 10)⟩, true, false⟩ := by
  simp only [C1T1_eval, initGame]

theorem C1T1_gs : C1T1.pitchGravityScale = (25 / 28) := by
  simp only [C1T1_eval, initGame]

theorem C1T1_mx : C1T1.pitchMoveXPerSec = 0 := by
  simp only [C1T1_eval, initGame]

theorem C1T1_my : C1T1.pitchMoveYPerSec = -1 := by
  simp only [C1T1_eval, initGame]

theorem C1T1_had : C1T1.hadContactThisPitch = false := by
  simp only [C1T1_eval, initGame]

theorem C1T1_sw : C1T1.swingUsedThisPitch = false := by
  simp only [C1T1_eval, initGame]

theorem C1T1_call : C1T1.currentPitchCall = "—" := by
  simp only [C1T1_eval, initGame]

theorem C1T1_crossed : C1T1.currentPitchHasCrossedPlate = false := by
  simp only [C1T1_eval, initGame]

theorem C1T1_strikes : C1T1.strikes = 0 := by
  simp only [C1T1_eval, initGame]

theorem C1T1_outs : C1T1.outs = 0 := by
  simp only [C1T1_eval, initGame]

theorem C1T2_eval : C1T2 =
    { C1T1 with
      bat := C1T1.bat.startSwing, swingUsedThisPitch := true,
      state := GState.SWINGING, lastResult := "Swinging..." } := by
  unfold C1T2
  exact swing_miss_eval C1T1 aimW 0 (Or.inl C1T1_state) C1T1_sw
    (by rw [C1T1_ball]) (by
      rw [C1T1_ball, not_le]
      exact lt_abs.mpr (Or.inr (by norm_num [plateZ, swingTimingWindowZ])))

theorem C1T2_state : C1T2.state = GState.SWINGING := by
  simp only [C1T2_eval]

theorem C1T2_ball : C1T2.ball = ⟨⟨(0), (11 / 10), (-92 / 5)⟩, ⟨(0), (0), (433 / 10)⟩, true, false⟩ := by
  simp only [C1T2_eval]; exact C1T1_ball

theorem C1T2_gs : C1T2.pitchGravityScale = (25 / 28) := by
  simp only [C1T2_eval]; exact C1T1_gs

theorem C1T2_mx : C1T2.pitchMoveXPerSec = 0 := by
  simp only [C1T2_eval]; exact C1T1_mx

theorem C1T2_my : C1T2.pitchMoveYPerSec = -1 := by
  simp only [C1T2_eval]; exact C1T1_my

theorem C1T2_had : C1T2.hadContactThisPitch = false := by
  simp only [C1T2_eval]; exact C1T1_had

theorem C1T2_sw : C1T2.swingUsedThisPitch = true := by
  simp only [C1T2_eval]

theorem C1T2_call : C1T2.currentPitchCall = "—" := by
  simp only [C1T2_eval]; exact C1T1_call

theorem C1T2_crossed : C1T2.currentPitchHasCrossedPlate = false := by
  simp only [C1T2_eval]; exact C1T1_crossed

theorem C1T2_strikes : C1T2.strikes = 0 := by
  simp only [C1T2_eval]; exact C1T1_strikes

theorem C1T2_outs : C1T2.outs = 0 := by
  simp only [C1T2_eval]; exact C1T1_outs

set_option maxHeartbeats 4000000 in
theorem C1T3_eval : C1T3 =
    { C1T2 with
      stateTimer := C1T2.stateTimer + c1dt1,
      ball := ⟨⟨(0), (1304586160151040721 / 1620000000000000000), (-15096860411245729 / 1350000000000000)⟩, ⟨(0), (-179333539772009 / 108000000000000), (3214496730041 / 90000000000)⟩, true, false⟩,
      bat := C1T2.bat.update c1dt1 } := by
  unfold C1T3
  exact pitch_tick_eval C1T2 c1dt1 (25 / 28) (-1) (0) (433 / 10)
    (11 / 10) (-92 / 5) (520033 / 12000) (-157510339772009 / 108000000000000) (3214496730041 / 90000000000)
    (-179333539772009 / 108000000000000) (1304586160151040721 / 1620000000000000000) (-15096860411245729 / 1350000000000000)
    (Or.inr C1T2_state) C1T2_ball C1T2_gs C1T2_mx C1T2_my C1T2_had
    (by norm_num [c1dt1]) (by norm_num [c1dt1])
    (by norm_num [pitchDragCoeff, c1dt1]) (by norm_num [pitchDragCoeff, c1dt1])
    (by norm_num [c1dt1])
    (by norm_num [c1dt1]) (by norm_num [c1dt1])
    (by norm_num [plateZ, c1dt1]) (by norm_num [strikeZoneCenterZ, plateZ, c1dt1])
    (by norm_num [c1dt1])

theorem C1T3_state : C1T3.state = GState.SWINGING := by
  simp only [C1T3_eval]; exact C1T2_state

theorem C1T3_ball : C1T3.ball = ⟨⟨(0), (1304586160151040721 / 1620000000000000000), (-15096860411245729 / 1350000000000000)⟩, ⟨(0), (-179333539772009 / 108000000000000), (3214496730041 / 90000000000)⟩, true, false⟩ := by
  simp only [C1T3_eval]

theorem C1T3_gs : C1T3.pitchGravityScale = (25 / 28) := by
  simp only [C1T3_eval]; exact C1T2_gs

theorem C1T3_mx : C1T3.pitchMoveXPerSec = 0 := by
  simp only [C1T3_eval]; exact C1T2_mx

theorem C1T3_my : C1T3.pitchMoveYPerSec = -1 := by
  simp only [C1T3_eval]; exact C1T2_my

theorem C1T3_had : C1T3.hadContactThisPitch = false := by
  simp only [C1T3_eval]; exact C1T2_had

theorem C1T3_sw : C1T3.swingUsedThisPitch = true := by
  simp only [C1T3_eval]; exact C1T2_sw

theorem C1T3_call : C1T3.currentPitchCall = "—" := by
  simp only [C1T3_eval]; exact C1T2_call

theorem C1T3_crossed : C1T3.currentPitchHasCrossedPlate = false := by
  simp only [C1T3_eval]; exact C1T2_crossed

theorem C1T3_strikes : C1T3.strikes = 0 := by
  simp only [C1T3_eval]; exact C1T2_strikes

theorem C1T3_outs : C1T3.outs = 0 := by
  simp only [C1T3_eval]; exact C1T2_outs

set_option maxHeartbeats 4000000 in
theorem C1T4_eval : C1T4 =
    { C1T3 with
      stateTimer := C1T3.stateTimer + c1dt2,
      ball := ⟨⟨(0), (3193359329187462205582674950976374773697877183192715460603 / 14408940150000000000000000000000000000000000000000000000000), (-995818627160532866719202492996624967671125311884673637229 / 196485547500000000000000000000000000000000000000000000000)⟩, ⟨(0), (-30275454031413158784729276165148656306068939 / 9702990000000000000000000000000000000000000), (4048023669357443671818468023592665186581277 / 132313500000000000000000000000000000000000)⟩, true, false⟩,
      bat := C1T3.bat.update c1dt2 } := by
  unfold C1T4
  exact pitch_tick_eval C1T3 c1dt2 (25 / 28) (-1) (-179333539772009 / 108000000000000) (3214496730041 / 90000000000)
    (1304586160151040721 / 1620000000000000000) (-15096860411245729 / 1350000000000000) (710403777339061 / 19800000000000) (-28336165685502105702729276165148656306068939 / 9702990000000000000000000000000000000000000) (4048023669357443671818468023592665186581277 / 132313500000000000000000000000000000000000)
    (-30275454031413158784729276165148656306068939 / 9702990000000000000000000000000000000000000) (3193359329187462205582674950976374773697877183192715460603 / 14408940150000000000000000000000000000000000000000000000000) (-995818627160532866719202492996624967671125311884673637229 / 196485547500000000000000000000000000000000000000000000000)
    (Or.inr C1T3_state) C1T3_ball C1T3_gs C1T3_mx C1T3_my C1T3_had
    (by norm_num [c1dt2]) (by norm_num [c1dt2])
    (by norm_num [pitchDragCoeff, c1dt2]) (by norm_num [pitchDragCoeff, c1dt2])
    (by norm_num [c1dt2])
    (by norm_num [c1dt2]) (by norm_num [c1dt2])
    (by norm_num [plateZ, c1dt2]) (by norm_num [strikeZoneCenterZ, plateZ, c1dt2])
    (by norm_num [c1dt2])

theorem C1T4_state : C1T4.state = GState.SWINGING := by
  simp only [C1T4_eval]; exact C1T3_state

theorem C1T4_ball : C1T4.ball = ⟨⟨(0), (3193359329187462205582674950976374773697877183192715460603 / 14408940150000000000000000000000000000000000000000000000000), (-995818627160532866719202492996624967671125311884673637229 / 196485547500000000000000000000000000000000000000000000000)⟩, ⟨(0), (-30275454031413158784729276165148656306068939 / 9702990000000000000000000000000000000000000), (4048023669357443671818468023592665186581277 / 132313500000000000000000000000000000000000)⟩, true, false⟩ := by
  simp only [C1T4_eval]

theorem C1T4_gs : C1T4.pitchGravityScale = (25 / 28) := by
  simp only [C1T4_eval]; exact C1T3_gs

theorem C1T4_mx : C1T4.pitchMoveXPerSec = 0 := by
  simp only [C1T4_eval]; exact C1T3_mx

theorem C1T4_my : C1T4.pitchMoveYPerSec = -1 := by
  simp only [C1T4_eval]; exact C1T3_my

theorem C1T4_had : C1T4.hadContactThisPitch = false := by
  simp only [C1T4_eval]; exact C1T3_had

theorem C1T4_sw : C1T4.swingUsedThisPitch = true := by
  simp only [C1T4_eval]; exact C1T3_sw

theorem C1T4_call : C1T4.currentPitchCall = "—" := by
  simp only [C1T4_eval]; exact C1T3_call

theorem C1T4_crossed : C1T4.currentPitchHasCrossedPlate = false := by
  simp only [C1T4_eval]; exact C1T3_crossed

theorem C1T4_strikes : C1T4.strikes = 0 := by
  simp only [C1T4_eval]; exact C1T3_strikes

theorem C1T4_outs : C1T4.outs = 0 := by
  simp only [C1T4_eval]; exact C1T3_outs

set_option maxHeartbeats 4000000 in
theorem C1_final_motion : C1T4.pitchMotion c1dt3 =
    { C1T4 with
      ball := ⟨⟨(0), (-845711576352367251064195445445542737536232165597908288646862901798817594994089705672696663469988323260783718794325962352992600586753061690726128419075238723890843689961317969247 / 4136818265356597437628850731200000000000000000000000000000000000000000000000000000000000000000000000000000000000000000000000000000000000000000000000000000000000000000000000000000), (-1045422030963936326559653832583431576328497589151938745401174236511205122951486294327303336530011676739216281205674037647007399413246938309273871580924761276109156310038682030753 / 554038160538830013968149651500000000000000000000000000000000000000000000000000000000000000000000000000000000000000000000000000000000000000000000000000000000000000000000000000000)⟩,
        ⟨(0), (-6833023993204098028594366565086106977404972445904055519067059358553575184406160442065839037338859373420221310415141388487234393371109 / 1740182408892473493024000000000000000000000000000000000000000000000000000000000000000000000000000000000000000000000000000000000000000), (6638677153301367442864246448373788540732042511627021751719219358553575184406160442065839037338859373420221310415141388487234393371109 / 233060144048099128530000000000000000000000000000000000000000000000000000000000000000000000000000000000000000000000000000000000000000)⟩, true, false⟩ } := by
  have h := pitch_motion_eval C1T4 c1dt3 (25 / 28) (-1) (-30275454031413158784729276165148656306068939 / 9702990000000000000000000000000000000000000) (4048023669357443671818468023592665186581277 / 132313500000000000000000000000000000000000)
    (3193359329187462205582674950976374773697877183192715460603 / 14408940150000000000000000000000000000000000000000000000000) (-995818627160532866719202492996624967671125311884673637229 / 196485547500000000000000000000000000000000000000000000000) (457426674637391134915486886665971166083684301 / 14819112000000000000000000000000000000000000)
    C1T4_ball C1T4_gs C1T4_mx C1T4_my
    (by norm_num [c1dt3]) (by norm_num [c1dt3]) (by norm_num [plateZ, pitchDragCoeff, c1dt3])
  rw [h]
  apply Game.ext <;>
    first
      | rfl
      | (apply Ball.ext <;>
          first
            | rfl
            | (apply Vec3.ext <;> norm_num [pitchDragCoeff, c1dt3]))

set_option maxHeartbeats 4000000 in
theorem C1_final_step : Game.step (GInput.tick c1dt3) C1T4 =
    { C1T4 with
      state := GState.RESULT, stateTimer := 0,
      lastResult := "Strike (swinging)",
      strikes := if maxStrikes ≤ C1T4.strikes + 1 then 0 else C1T4.strikes + 1,
      outs := if maxStrikes ≤ C1T4.strikes + 1 then C1T4.outs + 1 else C1T4.outs,
      ball := ⟨⟨(0), (-10), (0)⟩,
        ⟨(0), (-6833023993204098028594366565086106977404972445904055519067059358553575184406160442065839037338859373420221310415141388487234393371109 / 1740182408892473493024000000000000000000000000000000000000000000000000000000000000000000000000000000000000000000000000000000000000000), (6638677153301367442864246448373788540732042511627021751719219358553575184406160442065839037338859373420221310415141388487234393371109 / 233060144048099128530000000000000000000000000000000000000000000000000000000000000000000000000000000000000000000000000000000000000000)⟩, false, false⟩,
      bat := C1T4.bat.update c1dt3 } := by
  have h := pitch_tick_finish_eval C1T4 c1dt3 (25 / 28) (-1) (-30275454031413158784729276165148656306068939 / 9702990000000000000000000000000000000000000) (4048023669357443671818468023592665186581277 / 132313500000000000000000000000000000000000)
    (3193359329187462205582674950976374773697877183192715460603 / 14408940150000000000000000000000000000000000000000000000000) (-995818627160532866719202492996624967671125311884673637229 / 196485547500000000000000000000000000000000000000000000000) (457426674637391134915486886665971166083684301 / 14819112000000000000000000000000000000000000)
    (Or.inr C1T4_state) C1T4_ball C1T4_gs C1T4_mx C1T4_my C1T4_had
    (by norm_num [c1dt3]) (by norm_num [c1dt3])
    (by norm_num [pitchDragCoeff, c1dt3]) (by norm_num [plateZ, pitchDragCoeff, c1dt3])
    (by rw [C1T4_call]; decide) C1T4_sw
  rw [h]
  apply Game.ext <;>
    first
      | rfl
      | (apply Ball.ext <;>
          first
            | rfl
            | (apply Vec3.ext <;> norm_num [pitchDragCoeff, c1dt3]))

theorem reach_C2T5 : Reachable C2T5 := by
  have r1 : Reachable C2T1 := by
    unfold C2T1
    exact Reachable.pitch c2Oracle Reachable.init (by norm_num [PitchOracle.valid, c2Oracle])
  have r2 : Reachable C2T2 := by
    unfold C2T2
    exact Reachable.tick c2dt1 r1 (by norm_num [c2dt1])
  have r3 : Reachable C2T3 := by
    unfold C2T3
    exact Reachable.tick c2dt2 r2 (by norm_num [c2dt2])
  have r4 : Reachable C2T4 := by
    unfold C2T4
    exact Reachable.tick c2dt3 r3 (by norm_num [c2dt3])
  unfold C2T5
  exact Reachable.tick c2dt4 r4 (by norm_num [c2dt4])

theorem reach_C1T4 : Reachable C1T4 := by
  have r1 : Reachable C1T1 := by
    unfold C1T1
    exact Reachable.pitch c1Oracle Reachable.init (by norm_num [PitchOracle.valid, c1Oracle])
  have r2 : Reachable C1T2 := by
    unfold C1T2
    exact Reachable.swing aimW 0 r1 (by norm_num [AimInput.valid, aimW]) le_rfl one_pos
  have r3 : Reachable C1T3 := by
    unfold C1T3
    exact Reachable.tick c1dt1 r2 (by norm_num [c1dt1])
  unfold C1T4
  exact Reachable.tick c1dt2 r3 (by norm_num [c1dt2])

/-- C1: the dirt clause of the claim is false on the code: on a reachable
pitch that drops below ground before the plate after a missed swing, the code
registers a swinging strike (strikes change), not a ball. -/
theorem c1_counterexample : ¬ClaimC1Dirt := by
  intro h
  obtain ⟨hstr, -⟩ := h C1T4 c1dt3 reach_C1T4 (by norm_num [c1dt3])
    (Or.inr C1T4_state) (by rw [C1T4_ball]) C1T4_had C1T4_crossed
    (by rw [C1_final_motion]; norm_num)
    (by rw [C1_final_motion]; norm_num [plateZ])
  rw [C1_final_step, C1T4_strikes] at hstr
  simp [maxStrikes] at hstr

theorem clampR_mem (v lo hi : ℝ) (h : lo ≤ hi) :
    lo ≤ clampR v lo hi ∧ clampR v lo hi ≤ hi :=
  ⟨le_max_left _ _, max_le h (min_le_left _ _)⟩

theorem perfectFactor_bounds (d : ℝ) : 0 ≤ perfectFactor d ∧ perfectFactor d ≤ 1 := by
  unfold perfectFactor distFactorOf
  split_ifs
  · exact ⟨zero_le_one, le_rfl⟩
  · obtain ⟨h0, h1⟩ := clampR_mem (1 - d / maxScreenDistForHit) 0 1 zero_le_one
    constructor
    · positivity
    · nlinarith

/-- Conditions that necessarily hold whenever the screen-space contact check
reports contact. -/
theorem tryContact_some_conditions (a : AimInput) (s : Game) (bq : Vec3 × ℝ)
    (h : s.tryScreenSpaceContact a = some bq) :
    s.ball.isActive = true ∧ |s.ball.pos.z - plateZ| ≤ swingTimingWindowZ ∧
    bq.1 = s.ball.pos ∧ 0 ≤ bq.2 ∧ bq.2 ≤ 1 := by
  unfold Game.tryScreenSpaceContact at h
  by_cases h1 : s.ball.isActive = false
  · rw [if_pos h1] at h
    exact absurd h (by simp)
  · rw [if_neg h1] at h
    by_cases h2 : ¬|s.ball.pos.z - plateZ| ≤ swingTimingWindowZ
    · rw [if_pos h2] at h
      exact absurd h (by simp)
    · rw [if_neg h2] at h
      rw [not_not] at h2
      refine ⟨by simpa using h1, h2, ?_⟩
      rcases harect : a.rect with _ | rect
      · rw [harect] at h
        exact absurd h (by simp)
      · rw [harect] at h
        dsimp only at h
        by_cases h3 : rect.width = 0 ∨ rect.height = 0
        · rw [if_pos h3] at h
          exact absurd h (by simp)
        · rw [if_neg h3] at h
          by_cases h4 : maxScreenDistForHit <
              Real.sqrt
                ((((a.projX + 1) / 2 * a.innerWidth - rect.left) / rect.width - a.reticleU) *
                    (((a.projX + 1) / 2 * a.innerWidth - rect.left) / rect.width - a.reticleU) +
                  (((-a.projY + 1) / 2 * a.innerHeight - rect.top) / rect.height - a.reticleV) *
                    (((-a.projY + 1) / 2 * a.innerHeight - rect.top) / rect.height - a.reticleV))
          · rw [if_pos h4] at h
            exact absurd h (by simp)
          · rw [if_neg h4] at h
            have hbq := Option.some.inj h
            rw [← hbq]
            exact ⟨rfl, (perfectFactor_bounds _).1, (perfectFactor_bounds _).2⟩

/-- C2 amended: contact is resolved by a swing only from a not-yet-swung
pitching or swinging state with the ball active and inside the z timing
window around the plate; the contact window of the bat swing clock is not
consulted. -/
theorem c2_contact_conditions (s : Game) (a : AimInput) (r : ℝ)
    (h : (Game.step (GInput.swing a r) s).hadContactThisPitch = true) :
    s.hadContactThisPitch = true ∨
    (s.ball.isActive = true ∧ (s.state = GState.PITCHING ∨ s.state = GState.SWINGING) ∧
      s.swingUsedThisPitch = false ∧ |s.ball.pos.z - plateZ| ≤ swingTimingWindowZ) := by
  replace h : (Game.handleSwing a r s).hadContactThisPitch = true := h
  unfold Game.handleSwing at h
  by_cases h1 : ({ s with bat := s.bat.startSwing } : Game).state = GState.PITCHING ∨
      ({ s with bat := s.bat.startSwing } : Game).state = GState.SWINGING
  · rw [if_pos h1] at h
    by_cases h2 : ({ s with bat := s.bat.startSwing } : Game).swingUsedThisPitch = true
    · rw [if_pos h2] at h
      exact Or.inl h
    · rw [if_neg h2] at h
      dsimp only at h
      rcases htc : Game.tryScreenSpaceContact a
          { s with
            bat := s.bat.startSwing, swingUsedThisPitch := true,
            state := GState.SWINGING } with _ | bq
      · rw [htc] at h
        dsimp only at h
        exact Or.inl h
      · obtain ⟨hact, hz, -, -, -⟩ := tryContact_some_conditions a _ bq htc
        refine Or.inr ⟨hact, h1, by simpa using h2, hz⟩
  · rw [if_neg h1] at h
    exact Or.inl h

theorem freshSwing_window_closed : ¬Bat.isInContactWindow ⟨true, 0⟩ := by
  unfold Bat.isInContactWindow
  rw [if_neg (by simp)]
  rintro ⟨h1, -⟩
  norm_num [Bat.CONTACT_START, Bat.SWING_DURATION] at h1

/-- C2: the claim is false on the code: from the reachable state C2T5 a swing
resolves contact although the freshly started swing clock is at zero, outside
the contact window. -/
theorem c2_counterexample : ¬ClaimC2Window := by
  intro h
  have hcontact : (Game.step (GInput.swing aimW (1 / 2)) C2T5).hadContactThisPitch = true := by
    rw [swing_contact_aimW C2T5 (1 / 2) (Or.inl C2T5_state) C2T5_sw
      (by rw [C2T5_ball])
      (by rw [C2T5_ball]; rw [abs_le]; constructor <;>
        norm_num [plateZ, swingTimingWindowZ])]
    exact (onContact_projections _ _ _ _).1
  have h5 := h C2T5 aimW (1 / 2) reach_C2T5
    (by norm_num [AimInput.valid, aimW]) (by norm_num) (by norm_num) hcontact
  rcases h5 with h5 | h5
  · rw [C2T5_had] at h5
    exact absurd h5 (by simp)
  · rw [C2T5_bat, bat_start_inactive] at h5
    exact freshSwing_window_closed h5

/-- C1 amended: a pitch finishing without contact follows the precedence
Ball-call, then swing, then Strike-call, then generic miss; the optional
label (set to "In the dirt" exactly when the ball ended below ground) only
names the outcome in the Ball-call and generic-miss branches, so a dirt
pitch after a swing still registers a swinging strike. -/
theorem c1_finish_precedence :
    (∀ (s : Game) (lbl : Option String),
      (s.currentPitchCall = "Ball" →
        (s.finishPitchWithoutContact lbl).lastResult = lbl.getD "Ball" ∧
        (s.finishPitchWithoutContact lbl).strikes = s.strikes ∧
        (s.finishPitchWithoutContact lbl).outs = s.outs) ∧
      (s.currentPitchCall ≠ "Ball" → s.swingUsedThisPitch = true →
        (s.finishPitchWithoutContact lbl).lastResult = "Strike (swinging)" ∧
        (s.finishPitchWithoutContact lbl).strikes = s.addStrike.strikes ∧
        (s.finishPitchWithoutContact lbl).outs = s.addStrike.outs) ∧
      (s.currentPitchCall ≠ "Ball" → s.swingUsedThisPitch = false →
        s.currentPitchCall = "Strike" →
        (s.finishPitchWithoutContact lbl).lastResult = "Strike (looking)" ∧
        (s.finishPitchWithoutContact lbl).strikes = s.addStrike.strikes ∧
        (s.finishPitchWithoutContact lbl).outs = s.addStrike.outs) ∧
      (s.currentPitchCall ≠ "Ball" → s.swingUsedThisPitch = false →
        s.currentPitchCall ≠ "Strike" →
        (s.finishPitchWithoutContact lbl).lastResult = lbl.getD "Miss" ∧
        (s.finishPitchWithoutContact lbl).strikes = s.strikes ∧
        (s.finishPitchWithoutContact lbl).outs = s.outs) ∧
      (s.finishPitchWithoutContact lbl).ball.isActive = false ∧
      (s.finishPitchWithoutContact lbl).state = GState.RESULT) ∧
    (∀ (s : Game) (dt : ℝ),
      (strikeZoneCenterZ + 1.0 < (s.pitchMotion dt).ball.pos.z ∨
        (s.pitchMotion dt).ball.pos.y < 0 ∨ (s.pitchMotion dt).ball.isActive = false) →
      (s.pitchMotion dt).hadContactThisPitch = false →
      Game.updatePitching dt s =
        (s.pitchMotion dt).finishPitchWithoutContact
          (if (s.pitchMotion dt).ball.pos.y < 0 then some "In the dirt" else none)) := by
  constructor
  · intro s lbl
    refine ⟨fun hb => ?_, fun hnb hsw => ?_, fun hnb hnsw hst => ?_,
      fun hnb hnsw hnst => ?_, ?_, ?_⟩
    · simp only [Game.finishPitchWithoutContact, Game.enterResultState, Ball.deactivate]
      rw [if_pos hb]
      exact ⟨rfl, rfl, rfl⟩
    · simp only [Game.finishPitchWithoutContact, Game.enterResultState, Ball.deactivate]
      rw [if_neg hnb, if_pos hsw]
      exact ⟨rfl, rfl, rfl⟩
    · simp only [Game.finishPitchWithoutContact, Game.enterResultState, Ball.deactivate]
      rw [if_neg hnb, if_neg (by rw [hnsw]; simp), if_pos hst]
      exact ⟨rfl, rfl, rfl⟩
    · simp only [Game.finishPitchWithoutContact, Game.enterResultState, Ball.deactivate]
      rw [if_neg hnb, if_neg (by rw [hnsw]; simp), if_neg hnst]
      exact ⟨rfl, rfl, rfl⟩
    · simp only [Game.finishPitchWithoutContact, Game.enterResultState, Ball.deactivate]
    · simp only [Game.finishPitchWithoutContact, Game.enterResultState, Ball.deactivate]
  · intro s dt h1 h2
    unfold Game.updatePitching
    rw [if_pos ⟨h1, h2⟩]

theorem c1_finish_precedence_witness :
    (initGame.finishPitchWithoutContact none).state = GState.RESULT ∧
    (({ initGame with swingUsedThisPitch := true } : Game).currentPitchCall ≠ "Ball" ∧
      ({ initGame with swingUsedThisPitch := true } : Game).swingUsedThisPitch = true ∧
      (({ initGame with swingUsedThisPitch := true } : Game).finishPitchWithoutContact
          (some "In the dirt")).lastResult = "Strike (swinging)") ∧
    Game.updatePitching c1dt3 C1T4 =
      (C1T4.pitchMotion c1dt3).finishPitchWithoutContact
        (if (C1T4.pitchMotion c1dt3).ball.pos.y < 0 then some "In the dirt" else none) := by
  have hne : ({ initGame with swingUsedThisPitch := true } : Game).currentPitchCall ≠ "Ball" := by
    simp [initGame]
  have hsw : ({ initGame with swingUsedThisPitch := true } : Game).swingUsedThisPitch = true := rfl
  refine ⟨(c1_finish_precedence.1 initGame none).2.2.2.2.2, ⟨hne, hsw, ?_⟩, ?_⟩
  · exact ((c1_finish_precedence.1 _ (some "In the dirt")).2.1 hne hsw).1
  · exact c1_finish_precedence.2 C1T4 c1dt3
      (Or.inr (Or.inl (by rw [C1_final_motion]; norm_num)))
      (by rw [C1_final_motion]; exact C1T4_had)

theorem c2_contact_conditions_witness :
    (Game.step (GInput.swing aimW 0) gameW).hadContactThisPitch = true ∧
    (gameW.hadContactThisPitch = true ∨
      (gameW.ball.isActive = true ∧
        (gameW.state = GState.PITCHING ∨ gameW.state = GState.SWINGING) ∧
        gameW.swingUsedThisPitch = false ∧
        |gameW.ball.pos.z - plateZ| ≤ swingTimingWindowZ)) := by
  have hc : (Game.step (GInput.swing aimW 0) gameW).hadContactThisPitch = true := by
    rw [swing_contact_aimW gameW 0 (Or.inl rfl) rfl rfl
      (by norm_num [gameW, initGame, plateZ, swingTimingWindowZ])]
    exact (onContact_projections _ _ _ _).1
  exact ⟨hc, c2_contact_conditions gameW aimW 0 hc⟩

theorem c3Far_update_eval : c3Far.ball.update (1 / 10) gravityVec flightDragCoeff =
    ⟨⟨0, 5, -20273 / 100⟩, ⟨0, 0, -273 / 10⟩, true, true⟩ := by
  rw [Ball.update_eval c3Far.ball (1 / 10) gravityVec flightDragCoeff 0 0 (-30) 30
    rfl (by norm_num [flightDragCoeff])
    (by norm_num [c3Far, initGame, gravityVec])
    (by norm_num [c3Far, initGame, gravityVec])
    (by norm_num [c3Far, initGame, gravityVec])
    (by norm_num) (by norm_num)]
  apply Ball.ext <;>
    first
      | rfl
      | (apply Vec3.ext <;> norm_num [c3Far, initGame, flightDragCoeff])

theorem c3Ground_update_eval : c3Ground.ball.update (1 / 10) gravityVec flightDragCoeff =
    ⟨⟨0, 0, 1 / 4 - 8750000 / 82021⟩, ⟨0, -591 / 200, -197 / 50⟩, true, true⟩ := by
  rw [Ball.update_eval c3Ground.ball (1 / 10) gravityVec flightDragCoeff 0 (-3) (-4) 5
    rfl (by norm_num [flightDragCoeff])
    (by norm_num [c3Ground, initGame, gravityVec])
    (by norm_num [c3Ground, initGame, gravityVec])
    (by norm_num [c3Ground, initGame, gravityVec])
    (by norm_num) (by norm_num)]
  apply Ball.ext <;>
    first
      | rfl
      | (apply Vec3.ext <;> norm_num [c3Ground, initGame, flightDragCoeff])

theorem c3Far_result : (c3Far.updateBallInPlay (1 / 10)).score = 0 ∧
    (c3Far.updateBallInPlay (1 / 10)).lastHitDistanceFeet = 0 ∧
    (c3Far.updateBallInPlay (1 / 10)).state = GState.RESULT := by
  unfold Game.updateBallInPlay
  rw [if_neg (show ¬(c3Far.ball.isActive = false) by simp [c3Far, initGame])]
  dsimp only
  rw [c3Far_update_eval]
  dsimp only
  rw [if_neg (show ¬((5 : ℝ) ≤ 0) by norm_num),
    if_pos (show (150 : ℝ) * 150 < Vec3.lengthSq ⟨0, 5, -20273 / 100⟩ by
      norm_num [Vec3.lengthSq])]
  exact ⟨rfl, rfl, rfl⟩

theorem jsRound_eval (x : ℝ) (n : ℤ) (h1 : (n : ℝ) ≤ x + 1 / 2) (h2 : x + 1 / 2 < n + 1) :
    jsRound x = n := Int.floor_eq_iff.mpr ⟨h1, h2⟩

theorem c3Ground_result :
    (c3Ground.updateBallInPlay (1 / 10)).lastHitDistanceFeet = 350 ∧
    (c3Ground.updateBallInPlay (1 / 10)).score = c3Ground.score + 219 ∧
    (c3Ground.updateBallInPlay (1 / 10)).state = GState.RESULT ∧
    (c3Ground.updateBallInPlay (1 / 10)).ball.isActive = false := by
  unfold Game.updateBallInPlay
  rw [if_neg (show ¬(c3Ground.ball.isActive = false) by simp [c3Ground, initGame])]
  dsimp only
  rw [c3Ground_update_eval]
  dsimp only
  rw [if_pos (le_refl (0 : ℝ))]
  have hsq : Real.sqrt ((0 : ℝ) * 0 +
      (1 / 4 - 8750000 / 82021 - plateZ) * (1 / 4 - 8750000 / 82021 - plateZ)) =
      8750000 / 82021 := by
    rw [show (0 : ℝ) * 0 +
        (1 / 4 - 8750000 / 82021 - plateZ) * (1 / 4 - 8750000 / 82021 - plateZ) =
        (8750000 / 82021 : ℝ) ^ 2 by norm_num [plateZ]]
    exact Real.sqrt_sq (by norm_num)
  rw [hsq]
  rw [if_pos (show c3Ground.lastWasFairHit = true ∧ 0 < (8750000 / 82021 : ℝ) * FT_PER_M from
    ⟨rfl, by norm_num [FT_PER_M]⟩)]
  refine ⟨by

    show (8750000 / 82021 : ℝ) * FT_PER_M = 350
    norm_num [FT_PER_M], ?_, rfl, rfl⟩
  show c3Ground.score + jsRound ((8750000 / 82021 : ℝ) * FT_PER_M * 0.5 +
      max 0 (c3Ground.lastExitMph - 60) * 1.1) = c3Ground.score + 219
  congr 1
  rw [show c3Ground.lastExitMph = (100 : ℝ) from rfl,
    show ((100 : ℝ) - 60) = 40 by norm_num,
    max_eq_right (show (0 : ℝ) ≤ 40 by norm_num),
    show (8750000 / 82021 : ℝ) * FT_PER_M * 0.5 + 40 * 1.1 = 219 by norm_num [FT_PER_M]]
  exact jsRound_eval 219 219 (by norm_num) (by norm_num)

/-- C3: the spec says whenever flight ends (ground hit or max distance) the
horizontal distance from the plate is computed and, if the contact was fair,
distance and exit-speed points are awarded.  This fails on the max-distance
branch: the code there only deactivates the ball and enters RESULT, computing
no distance and awarding no points. -/
theorem c3_counterexample : ¬ClaimC3Landing := by
  intro h
  obtain ⟨-, hscore⟩ := h c3Far (1 / 10) rfl rfl
    (Or.inr (by rw [c3Far_update_eval]; norm_num [Vec3.lengthSq]))
  have h2 := hscore rfl
  rw [c3Far_result.1, c3Far_result.2.1] at h2
  rw [show c3Far.score = (0 : ℤ) from rfl, show c3Far.lastExitMph = (100 : ℝ) from rfl] at h2
  rw [show ((100 : ℝ) - 60) = 40 by norm_num,
    max_eq_right (show (0 : ℝ) ≤ 40 by norm_num),
    show (0 : ℝ) * 0.5 + 40 * 1.1 = 44 by norm_num,
    jsRound_eval 44 44 (by norm_num) (by norm_num)] at h2
  exact absurd h2 (by norm_num)

/-- C3 (amended): when the updated flight ball reaches the ground (y at or
below 0), the landing distance-from-plate is recorded in feet and, exactly when
the last contact was fair and the recorded distance is positive, the score
increases by jsRound of half the distance plus 1.1 points per exit mph above
60; the ball is deactivated and the state becomes RESULT.  When instead the
ball is still airborne but its position exceeds 150 world units from the
origin, the code only deactivates the ball and enters RESULT: score and
lastHitDistanceFeet are unchanged and no distance is computed.  A concrete
fair landing at 350 feet with 100 mph exit speed awards 219 points. -/
theorem c3_landing_scoring :
    (∀ (s : Game) (dt : ℝ),
      s.ball.isActive = true →
      (s.ball.update dt gravityVec flightDragCoeff).pos.y ≤ 0 →
      ((s.updateBallInPlay dt).lastHitDistanceFeet =
        Real.sqrt ((s.ball.update dt gravityVec flightDragCoeff).pos.x *
            (s.ball.update dt gravityVec flightDragCoeff).pos.x +
          ((s.ball.update dt gravityVec flightDragCoeff).pos.z - plateZ) *
            ((s.ball.update dt gravityVec flightDragCoeff).pos.z - plateZ)) * FT_PER_M) ∧
      ((s.lastWasFairHit = true ∧ 0 < (s.updateBallInPlay dt).lastHitDistanceFeet) →
        (s.updateBallInPlay dt).score = s.score +
          jsRound ((s.updateBallInPlay dt).lastHitDistanceFeet * 0.5 +
            max 0 (s.lastExitMph - 60) * 1.1)) ∧
      (¬(s.lastWasFairHit = true ∧ 0 < (s.updateBallInPlay dt).lastHitDistanceFeet) →
        (s.updateBallInPlay dt).score = s.score) ∧
      (s.updateBallInPlay dt).ball.isActive = false ∧
      (s.updateBallInPlay dt).state = GState.RESULT) ∧
    (∀ (s : Game) (dt : ℝ),
      s.ball.isActive = true →
      0 < (s.ball.update dt gravityVec flightDragCoeff).pos.y →
      150 * 150 < (s.ball.update dt gravityVec flightDragCoeff).pos.lengthSq →
      (s.updateBallInPlay dt).score = s.score ∧
      (s.updateBallInPlay dt).lastHitDistanceFeet = s.lastHitDistanceFeet ∧
      (s.updateBallInPlay dt).ball.isActive = false ∧
      (s.updateBallInPlay dt).state = GState.RESULT) ∧
    ((c3Ground.updateBallInPlay (1 / 10)).lastHitDistanceFeet = 350 ∧
      c3Ground.lastWasFairHit = true ∧ c3Ground.lastExitMph = 100 ∧
      (c3Ground.updateBallInPlay (1 / 10)).score = c3Ground.score + 219 ∧
      jsRound ((350 : ℝ) * 0.5 + max 0 ((100 : ℝ) - 60) * 1.1) = 219) := by
  refine ⟨?_, ?_, ?_⟩
  · intro s dt hact hy
    unfold Game.updateBallInPlay
    rw [if_neg (by simp [hact])]
    dsimp only
    rw [if_pos hy]
    split_ifs with hf
    · dsimp only
      exact ⟨rfl, fun hh => rfl, fun hh => absurd hf hh, rfl, rfl⟩
    · dsimp only
      exact ⟨rfl, fun hh => absurd hh hf, fun hh => rfl, rfl, rfl⟩
  · intro s dt hact hy hl
    unfold Game.updateBallInPlay
    rw [if_neg (by simp [hact])]
    dsimp only
    rw [if_neg (not_le.mpr hy), if_pos hl]
    exact ⟨rfl, rfl, rfl, rfl⟩
  · refine ⟨c3Ground_result.1, rfl, rfl, c3Ground_result.2.1, ?_⟩
    rw [show ((100 : ℝ) - 60) = 40 by norm_num,
      max_eq_right (show (0 : ℝ) ≤ 40 by norm_num),
      show (350 : ℝ) * 0.5 + 40 * 1.1 = 219 by norm_num]
    exact jsRound_eval 219 219 (by norm_num) (by norm_num)

/-- Witness: the amended C3 theorem applied to the concrete ground-landing
state c3Ground and to the concrete max-distance state c3Far. -/
theorem c3_landing_scoring_witness :
    (c3Ground.ball.isActive = true ∧
      (c3Ground.ball.update (1 / 10) gravityVec flightDragCoeff).pos.y ≤ 0 ∧
      (c3Ground.updateBallInPlay (1 / 10)).ball.isActive = false ∧
      (c3Ground.updateBallInPlay (1 / 10)).state = GState.RESULT) ∧
    (c3Far.ball.isActive = true ∧
      0 < (c3Far.ball.update (1 / 10) gravityVec flightDragCoeff).pos.y ∧
      150 * 150 < (c3Far.ball.update (1 / 10) gravityVec flightDragCoeff).pos.lengthSq ∧
      (c3Far.updateBallInPlay (1 / 10)).score = c3Far.score) := by
  have hyG : (c3Ground.ball.update (1 / 10) gravityVec flightDragCoeff).pos.y ≤ 0 := by
    rw [c3Ground_update_eval]
  have hyF : 0 < (c3Far.ball.update (1 / 10) gravityVec flightDragCoeff).pos.y := by
    rw [c3Far_update_eval]; norm_num
  have hlF : (150 : ℝ) * 150 <
      (c3Far.ball.update (1 / 10) gravityVec flightDragCoeff).pos.lengthSq := by
    rw [c3Far_update_eval]; norm_num [Vec3.lengthSq]
  exact ⟨⟨rfl, hyG, ((c3_landing_scoring.1) c3Ground (1 / 10) rfl hyG).2.2.2.1,
      ((c3_landing_scoring.1) c3Ground (1 / 10) rfl hyG).2.2.2.2⟩,
    ⟨rfl, hyF, hlF, ((c3_landing_scoring.2.1) c3Far (1 / 10) rfl hyF hlF).1⟩⟩

theorem addStrike_lt (s : Game) (h : s.strikes + 1 < maxStrikes) :
    (s.addStrike).strikes = s.strikes + 1 ∧ (s.addStrike).outs = s.outs := by
  unfold Game.addStrike
  dsimp only
  rw [if_neg (not_le.mpr h)]
  exact ⟨rfl, rfl⟩

theorem addStrike_max (s : Game) (h : maxStrikes ≤ s.strikes + 1) :
    (s.addStrike).strikes = 0 ∧ (s.addStrike).outs = s.outs + 1 := by
  unfold Game.addStrike
  dsimp only
  rw [if_pos h]
  exact ⟨rfl, rfl⟩

theorem finish_swinging (s : Game) (lbl : Option String)
    (hc : ¬s.currentPitchCall = "Ball") (hw : s.swingUsedThisPitch = true) :
    (s.finishPitchWithoutContact lbl).strikes = (s.addStrike).strikes ∧
    (s.finishPitchWithoutContact lbl).outs = (s.addStrike).outs := by
  unfold Game.finishPitchWithoutContact
  dsimp only
  rw [if_neg hc, if_pos hw]
  exact ⟨rfl, rfl⟩

/-- C4: Game._addStrike adds one strike when below the maximum of three and
otherwise resets strikes to zero while adding an out; hence three consecutive
swinging-strike pitch outcomes from zero strikes add exactly one out and end
with zero strikes. -/
theorem c4_strike_accumulation :
    (∀ s : Game,
      (s.strikes + 1 < maxStrikes →
        (s.addStrike).strikes = s.strikes + 1 ∧ (s.addStrike).outs = s.outs) ∧
      (maxStrikes ≤ s.strikes + 1 →
        (s.addStrike).strikes = 0 ∧ (s.addStrike).outs = s.outs + 1)) ∧
    (∀ s0 s1 s2 s3 : Game, s0.strikes = 0 →
      swingingStrikeOutcome s0 s1 → swingingStrikeOutcome s1 s2 →
      swingingStrikeOutcome s2 s3 →
      s3.outs = s0.outs + 1 ∧ s3.strikes = 0) := by
  constructor
  · exact fun s => ⟨fun h => addStrike_lt s h, fun h => addStrike_max s h⟩
  · intro s0 s1 s2 s3 h0 h01 h12 h23
    obtain ⟨hc0, hw0, hs1, ho1⟩ := h01
    obtain ⟨hc1, hw1, hs2, ho2⟩ := h12
    obtain ⟨hc2, hw2, hs3, ho3⟩ := h23
    have f0 := finish_swinging s0 none hc0 hw0
    have f1 := finish_swinging s1 none hc1 hw1
    have f2 := finish_swinging s2 none hc2 hw2
    have a0 := addStrike_lt s0 (by rw [h0]; norm_num [maxStrikes])
    have e1s : s1.strikes = 1 := by rw [hs1, f0.1, a0.1, h0]
    have e1o : s1.outs = s0.outs := by rw [ho1, f0.2, a0.2]
    have a1 := addStrike_lt s1 (by rw [e1s]; norm_num [maxStrikes])
    have e2s : s2.strikes = 2 := by rw [hs2, f1.1, a1.1, e1s]
    have e2o : s2.outs = s0.outs := by rw [ho2, f1.2, a1.2, e1o]
    have a2 := addStrike_max s2 (by rw [e2s]; norm_num [maxStrikes])
    exact ⟨by rw [ho3, f2.2, a2.2, e2o], by rw [hs3, f2.1, a2.1]⟩

/-- Witness: the three-swinging-strike chain at a concrete fresh-count state
and the single-strike branch at the initial state. -/
theorem c4_strike_accumulation_witness :
    c4g0.strikes = 0 ∧
    swingingStrikeOutcome c4g0 c4g1 ∧ swingingStrikeOutcome c4g1 c4g2 ∧
    swingingStrikeOutcome c4g2 c4g3 ∧
    (c4g3.outs = c4g0.outs + 1 ∧ c4g3.strikes = 0) ∧
    (initGame.strikes + 1 < maxStrikes ∧
      (initGame.addStrike).strikes = initGame.strikes + 1 ∧
      (initGame.addStrike).outs = initGame.outs) := by
  have h01 : swingingStrikeOutcome c4g0 c4g1 := ⟨by decide, rfl, rfl, rfl⟩
  have h12 : swingingStrikeOutcome c4g1 c4g2 := ⟨by decide, rfl, rfl, rfl⟩
  have h23 : swingingStrikeOutcome c4g2 c4g3 := ⟨by decide, rfl, rfl, rfl⟩
  have hlt : initGame.strikes + 1 < maxStrikes := by norm_num [initGame, maxStrikes]
  exact ⟨rfl, h01, h12, h23,
    (c4_strike_accumulation.2) c4g0 c4g1 c4g2 c4g3 rfl h01 h12 h23,
    hlt, ((c4_strike_accumulation.1) initGame).1 hlt⟩

theorem addStrike_strikes_lt (s : Game) (h : s.strikes < maxStrikes) :
    (s.addStrike).strikes < maxStrikes := by
  unfold Game.addStrike
  dsimp only
  split_ifs with h1
  · exact (by norm_num [maxStrikes] : (0 : ℕ) < maxStrikes)
  · exact not_le.mp h1

theorem addStrike_outs_le (s : Game) : s.outs ≤ (s.addStrike).outs := by
  unfold Game.addStrike
  dsimp only
  split_ifs
  · exact Nat.le_succ _
  · exact le_refl _

theorem addStrike_score (s : Game) : (s.addStrike).score = s.score := by
  unfold Game.addStrike
  dsimp only
  split_ifs <;> rfl

theorem finish_strikes_lt (s : Game) (lbl : Option String) (h : s.strikes < maxStrikes) :
    (s.finishPitchWithoutContact lbl).strikes < maxStrikes := by
  unfold Game.finishPitchWithoutContact
  dsimp only
  split_ifs <;> first | exact h | exact addStrike_strikes_lt s h

theorem finish_outs_le (s : Game) (lbl : Option String) :
    s.outs ≤ (s.finishPitchWithoutContact lbl).outs := by
  unfold Game.finishPitchWithoutContact
  dsimp only
  split_ifs <;> first | exact le_refl _ | exact addStrike_outs_le s

theorem finish_score (s : Game) (lbl : Option String) :
    (s.finishPitchWithoutContact lbl).score = s.score := by
  unfold Game.finishPitchWithoutContact
  dsimp only
  split_ifs <;> first | rfl | exact addStrike_score s

theorem pitchMotion_strikes (dt : ℝ) (s : Game) : (s.pitchMotion dt).strikes = s.strikes := by
  unfold Game.pitchMotion Game.checkPlateCrossing
  dsimp only
  split_ifs <;> rfl

theorem pitchMotion_outs (dt : ℝ) (s : Game) : (s.pitchMotion dt).outs = s.outs := by
  unfold Game.pitchMotion Game.checkPlateCrossing
  dsimp only
  split_ifs <;> rfl

theorem pitchMotion_score (dt : ℝ) (s : Game) : (s.pitchMotion dt).score = s.score := by
  unfold Game.pitchMotion Game.checkPlateCrossing
  dsimp only
  split_ifs <;> rfl

theorem updatePitching_strikes_lt (dt : ℝ) (s : Game) (h : s.strikes < maxStrikes) :
    (s.updatePitching dt).strikes < maxStrikes := by
  unfold Game.updatePitching
  dsimp only
  split_ifs <;>
    first
      | exact finish_strikes_lt _ _ (by rw [pitchMotion_strikes]; exact h)
      | (rw [pitchMotion_strikes]; exact h)

theorem updatePitching_outs_le (dt : ℝ) (s : Game) :
    s.outs ≤ (s.updatePitching dt).outs := by
  unfold Game.updatePitching
  dsimp only
  split_ifs <;>
    first
      | exact le_trans (le_of_eq (pitchMotion_outs dt s).symm) (finish_outs_le _ _)
      | exact le_of_eq (pitchMotion_outs dt s).symm

theorem updatePitching_score (dt : ℝ) (s : Game) :
    (s.updatePitching dt).score = s.score := by
  unfold Game.updatePitching
  dsimp only
  split_ifs <;>
    first
      | (rw [finish_score, pitchMotion_score])
      | (rw [pitchMotion_score])

theorem updateBallInPlay_strikes (dt : ℝ) (s : Game) :
    (s.updateBallInPlay dt).strikes = s.strikes := by
  unfold Game.updateBallInPlay
  dsimp only
  split_ifs <;> rfl

theorem updateBallInPlay_outs (dt : ℝ) (s : Game) :
    (s.updateBallInPlay dt).outs = s.outs := by
  unfold Game.updateBallInPlay
  dsimp only
  split_ifs <;> rfl

theorem updateBallInPlay_score_le (dt : ℝ) (s : Game) :
    s.score ≤ (s.updateBallInPlay dt).score := by
  unfold Game.updateBallInPlay
  dsimp only
  split_ifs with h1 h2 hf h3
  · exact le_refl _
  · refine le_add_of_nonneg_right (Int.le_floor.mpr ?_)
    have hd := hf.2
    have hmax : (0 : ℝ) ≤ max 0 (s.lastExitMph - 60) := le_max_left _ _
    push_cast
    nlinarith [hd, hmax]
  · exact le_refl _
  · exact le_refl _
  · exact le_refl _

theorem requestPitch_strikes (o : PitchOracle) (s : Game) :
    (s.requestPitch o).strikes = s.strikes := by
  unfold Game.requestPitch Game.startPitch
  dsimp only
  split_ifs <;> rfl

theorem requestPitch_outs (o : PitchOracle) (s : Game) :
    (s.requestPitch o).outs = s.outs := by
  unfold Game.requestPitch Game.startPitch
  dsimp only
  split_ifs <;> rfl

theorem requestPitch_score (o : PitchOracle) (s : Game) :
    (s.requestPitch o).score = s.score := by
  unfold Game.requestPitch Game.startPitch
  dsimp only
  split_ifs <;> rfl

theorem handleSwing_strikes (a : AimInput) (r : ℝ) (s : Game) :
    (s.handleSwing a r).strikes = s.strikes := by
  unfold Game.handleSwing
  dsimp only
  split_ifs <;> first | rfl | (split <;> rfl)

theorem handleSwing_outs (a : AimInput) (r : ℝ) (s : Game) :
    (s.handleSwing a r).outs = s.outs := by
  unfold Game.handleSwing
  dsimp only
  split_ifs <;> first | rfl | (split <;> rfl)

theorem handleSwing_score (a : AimInput) (r : ℝ) (s : Game) :
    (s.handleSwing a r).score = s.score := by
  unfold Game.handleSwing
  dsimp only
  split_ifs <;> first | rfl | (split <;> rfl)

theorem update_strikes_lt (dt : ℝ) (s : Game) (h : s.strikes < maxStrikes) :
    (s.update dt).strikes < maxStrikes := by
  unfold Game.update
  dsimp only
  split
  · exact h
  · exact updatePitching_strikes_lt dt { s with stateTimer := s.stateTimer + dt } h
  · exact updatePitching_strikes_lt dt { s with stateTimer := s.stateTimer + dt } h
  · rw [show ∀ u : Game, ({ u with bat := u.bat.update dt } : Game).strikes = u.strikes
      from fun u => rfl, updateBallInPlay_strikes]
    exact h
  · split_ifs <;> exact h

theorem update_outs_le (dt : ℝ) (s : Game) : s.outs ≤ (s.update dt).outs := by
  unfold Game.update
  dsimp only
  split
  · exact le_refl _
  · exact updatePitching_outs_le dt { s with stateTimer := s.stateTimer + dt }
  · exact updatePitching_outs_le dt { s with stateTimer := s.stateTimer + dt }
  · rw [show ∀ u : Game, ({ u with bat := u.bat.update dt } : Game).outs = u.outs
      from fun u => rfl, updateBallInPlay_outs]
  · split_ifs <;> exact le_refl _

theorem update_score_le (dt : ℝ) (s : Game) : s.score ≤ (s.update dt).score := by
  unfold Game.update
  dsimp only
  split
  · exact le_refl _
  · exact le_of_eq (updatePitching_score dt { s with stateTimer := s.stateTimer + dt }).symm
  · exact le_of_eq (updatePitching_score dt { s with stateTimer := s.stateTimer + dt }).symm
  · rw [show ∀ u : Game, ({ u with bat := u.bat.update dt } : Game).score = u.score
      from fun u => rfl]
    exact updateBallInPlay_score_le dt _
  · split_ifs <;> exact le_refl _

theorem strikes_inv (s : Game) (h : Reachable s) : s.strikes < maxStrikes := by
  induction h with
  | init => exact (by norm_num [maxStrikes] : (0 : ℕ) < maxStrikes)
  | tick dt hr hdt ih => exact update_strikes_lt dt _ ih
  | pitch o hr ho ih => exact lt_of_le_of_lt (le_of_eq (requestPitch_strikes o _)) ih
  | swing a r hr ha h0 h1 ih => exact lt_of_le_of_lt (le_of_eq (handleSwing_strikes a r _)) ih

/-- C5: on every reachable state the strike counter stays strictly below the
maximum of three, and every single operation of the state machine (tick,
pitch request or swing) leaves the out counter and the score no smaller than
before. -/
theorem c5_counter_invariants :
    (∀ s : Game, Reachable s → s.strikes < maxStrikes) ∧
    (∀ (s : Game) (i : GInput),
      s.outs ≤ (Game.step i s).outs ∧ s.score ≤ (Game.step i s).score) := by
  constructor
  · exact fun s h => strikes_inv s h
  · intro s i
    cases i with
    | tick dt => exact ⟨update_outs_le dt s, update_score_le dt s⟩
    | pitch o =>
      exact ⟨le_of_eq (requestPitch_outs o s).symm, le_of_eq (requestPitch_score o s).symm⟩
    | swing a r =>
      exact ⟨le_of_eq (handleSwing_outs a r s).symm, le_of_eq (handleSwing_score a r s).symm⟩

/-- Witness: the counter invariants applied at the initial state and at a
concrete one-second tick. -/
theorem c5_counter_invariants_witness :
    initGame.strikes < maxStrikes ∧
    initGame.outs ≤ (Game.step (GInput.tick 1) initGame).outs ∧
    initGame.score ≤ (Game.step (GInput.tick 1) initGame).score :=
  ⟨c5_counter_invariants.1 initGame Reachable.init,
   (c5_counter_invariants.2 initGame (GInput.tick 1)).1,
   (c5_counter_invariants.2 initGame (GInput.tick 1)).2⟩

/-- C6: on a tick whose ball positions straddle the plate plane (prevZ below,
currZ at or past plateZ), and only while the pitch has not yet crossed, the
crossing point is the linear interpolation of the two positions at
t = (plateZ - prevZ)/(currZ - prevZ) and the pitch call is made there; once
the crossed flag is set the check changes nothing.  For positions 0.05 before
and 0.05 past the plate the parameter is 1/2 and the point is the midpoint. -/
theorem c6_plate_crossing :
    (∀ (s : Game) (prevPos currPos : Vec3),
      s.currentPitchHasCrossedPlate = false → s.ball.isActive = true →
      s.hadContactThisPitch = false →
      prevPos.z < plateZ → plateZ ≤ currPos.z →
      (s.checkPlateCrossing prevPos currPos).currentPitchCall =
        callPitchAtPlate (Vec3.lerpVectors prevPos currPos
          ((plateZ - prevPos.z) / (currPos.z - prevPos.z))) ∧
      (s.checkPlateCrossing prevPos currPos).currentPitchHasCrossedPlate = true) ∧
    (∀ (s : Game) (prevPos currPos : Vec3),
      s.currentPitchHasCrossedPlate = true →
      s.checkPlateCrossing prevPos currPos = s) ∧
    ((plateZ - c6prev.z) / (c6curr.z - c6prev.z) = 1 / 2 ∧
      Vec3.lerpVectors c6prev c6curr ((plateZ - c6prev.z) / (c6curr.z - c6prev.z)) =
        Vec3.smul (1 / 2) (c6prev + c6curr) ∧
      (c6g.checkPlateCrossing c6prev c6curr).currentPitchCall = "Strike") := by
  have main : ∀ (s : Game) (prevPos currPos : Vec3),
      s.currentPitchHasCrossedPlate = false → s.ball.isActive = true →
      s.hadContactThisPitch = false →
      prevPos.z < plateZ → plateZ ≤ currPos.z →
      (s.checkPlateCrossing prevPos currPos).currentPitchCall =
        callPitchAtPlate (Vec3.lerpVectors prevPos currPos
          ((plateZ - prevPos.z) / (currPos.z - prevPos.z))) ∧
      (s.checkPlateCrossing prevPos currPos).currentPitchHasCrossedPlate = true := by
    intro s prevPos currPos h1 h2 h3 hz1 hz2
    unfold Game.checkPlateCrossing
    rw [if_neg (by simp [h1, h2, h3])]
    rw [if_pos ⟨hz1, hz2⟩]
    dsimp only
    exact ⟨rfl, rfl⟩
  have idem : ∀ (s : Game) (prevPos currPos : Vec3),
      s.currentPitchHasCrossedPlate = true →
      s.checkPlateCrossing prevPos currPos = s := by
    intro s prevPos currPos h
    unfold Game.checkPlateCrossing
    rw [if_pos (Or.inl h)]
  have hlt : c6prev.z < plateZ := by norm_num [c6prev, plateZ]
  have hle : plateZ ≤ c6curr.z := by norm_num [c6curr, plateZ]
  have hpoint : Vec3.lerpVectors c6prev c6curr
      ((plateZ - c6prev.z) / (c6curr.z - c6prev.z)) = ⟨0, 11 / 10, plateZ⟩ := by
    apply Vec3.ext <;> norm_num [Vec3.lerpVectors, c6prev, c6curr, plateZ]
  refine ⟨main, idem, by norm_num [c6prev, c6curr, plateZ], ?_, ?_⟩
  · rw [hpoint]
    apply Vec3.ext <;> norm_num [Vec3.smul, c6prev, c6curr, plateZ]
  · rw [(main c6g c6prev c6curr rfl rfl rfl hlt hle).1, hpoint]
    norm_num [callPitchAtPlate, zoneLeftX, zoneRightX, zoneBottomY, zoneTopY,
      strikeZoneWidth, strikeZoneHeight, strikeZoneCenterY, plateZ]

/-- Witness: the crossing computation applied to the concrete straddling tick
and the idempotence applied to its result. -/
theorem c6_plate_crossing_witness :
    (c6g.currentPitchHasCrossedPlate = false ∧ c6g.ball.isActive = true ∧
      c6g.hadContactThisPitch = false ∧ c6prev.z < plateZ ∧ plateZ ≤ c6curr.z) ∧
    (c6g.checkPlateCrossing c6prev c6curr).currentPitchHasCrossedPlate = true ∧
    ((c6g.checkPlateCrossing c6prev c6curr).checkPlateCrossing c6prev c6curr =
      c6g.checkPlateCrossing c6prev c6curr) := by
  have hlt : c6prev.z < plateZ := by norm_num [c6prev, plateZ]
  have hle : plateZ ≤ c6curr.z := by norm_num [c6curr, plateZ]
  have h1 := (c6_plate_crossing.1) c6g c6prev c6curr rfl rfl rfl hlt hle
  exact ⟨⟨rfl, rfl, rfl, hlt, hle⟩, h1.2, (c6_plate_crossing.2.1) _ c6prev c6curr h1.2⟩

/-- C7: the pitch call is Strike exactly when the crossing point lies in the
strike-zone rectangle with inclusive bounds on both axes, and Ball otherwise;
a point exactly on the right zone edge is a Strike, and any positive offset
past that edge is a Ball. -/
theorem c7_zone_call :
    (∀ p : Vec3,
      (callPitchAtPlate p = "Strike" ↔
        (zoneLeftX ≤ p.x ∧ p.x ≤ zoneRightX) ∧ (zoneBottomY ≤ p.y ∧ p.y ≤ zoneTopY)) ∧
      (callPitchAtPlate p = "Strike" ∨ callPitchAtPlate p = "Ball")) ∧
    (∀ y : ℝ, zoneBottomY ≤ y → y ≤ zoneTopY →
      callPitchAtPlate ⟨zoneRightX, y, plateZ⟩ = "Strike") ∧
    (∀ (y ε : ℝ), 0 < ε →
      callPitchAtPlate ⟨zoneRightX + ε, y, plateZ⟩ = "Ball") := by
  refine ⟨?_, ?_, ?_⟩
  · intro p
    unfold callPitchAtPlate
    split_ifs with h
    · exact ⟨iff_of_true rfl h, Or.inl rfl⟩
    · exact ⟨iff_of_false (by decide) h, Or.inr rfl⟩
  · intro y hy1 hy2
    unfold callPitchAtPlate
    dsimp only
    rw [if_pos ⟨⟨by norm_num [zoneLeftX, zoneRightX, strikeZoneWidth], le_refl _⟩, hy1, hy2⟩]
  · intro y ε hε
    unfold callPitchAtPlate
    dsimp only
    rw [if_neg (fun hc => absurd hc.1.2 (not_le.mpr (by linarith)))]

/-- Witness: the inclusive right-edge Strike at height 1.1 and the Ball one
unit past the edge. -/
theorem c7_zone_call_witness :
    (zoneBottomY ≤ (11 / 10 : ℝ) ∧ (11 / 10 : ℝ) ≤ zoneTopY ∧
      callPitchAtPlate ⟨zoneRightX, 11 / 10, plateZ⟩ = "Strike") ∧
    ((0 : ℝ) < 1 ∧ callPitchAtPlate ⟨zoneRightX + 1, 11 / 10, plateZ⟩ = "Ball") := by
  have hb : zoneBottomY ≤ (11 / 10 : ℝ) := by
    norm_num [zoneBottomY, strikeZoneCenterY, strikeZoneHeight]
  have ht : (11 / 10 : ℝ) ≤ zoneTopY := by
    norm_num [zoneTopY, strikeZoneCenterY, strikeZoneHeight]
  exact ⟨⟨hb, ht, c7_zone_call.2.1 (11 / 10) hb ht⟩,
    ⟨by norm_num, c7_zone_call.2.2 (11 / 10) 1 (by norm_num)⟩⟩

/-- C8: for every nonnegative drag coefficient the integration of Ball.update
agrees with the specification contract (gravity, then guarded quadratic drag,
then position), and an inactive ball is left unchanged by both.  The
nonnegativity hypothesis is needed because the source additionally skips drag
for nonpositive coefficients while the contract text only guards on speed;
every call site passes a positive constant. -/
theorem c8_ball_update_spec :
    (∀ (b : Ball) (dt : ℝ) (g : Vec3) (c : ℝ), 0 ≤ c →
      b.update dt g c = ballUpdateSpec b dt g c) ∧
    (∀ (b : Ball) (dt : ℝ) (g : Vec3) (c : ℝ), b.isActive = false →
      b.update dt g c = b ∧ ballUpdateSpec b dt g c = b) := by
  constructor
  · intro b dt g c hc
    unfold Ball.update ballUpdateSpec
    by_cases ha : b.isActive = false
    · rw [if_pos ha, if_pos ha]
    · rw [if_neg ha, if_neg ha]
      dsimp only
      rcases lt_or_eq_of_le hc with hpos | heq
      · rw [if_pos hpos]
      · rw [if_neg (show ¬(0 < c) by rw [← heq]; exact lt_irrefl 0)]
        split_ifs with hl
        · rw [← heq]
          apply Ball.ext <;>
            first
              | rfl
              | (apply Vec3.ext <;>
                  (simp only [Vec3.addScaled_x, Vec3.addScaled_y, Vec3.addScaled_z,
                    Vec3.smul_x, Vec3.smul_y, Vec3.smul_z, Vec3.normalize]; ring))
        · rfl
  · intro b dt g c hb
    refine ⟨?_, ?_⟩
    · unfold Ball.update; rw [if_pos hb]
    · unfold ballUpdateSpec; rw [if_pos hb]

/-- Witness: the agreement at zero drag on the initial ball and the inactive
no-op of the source update at the flight drag coefficient. -/
theorem c8_ball_update_spec_witness :
    (0 : ℝ) ≤ 0 ∧
    initGame.ball.update 1 gravityVec 0 = ballUpdateSpec initGame.ball 1 gravityVec 0 ∧
    initGame.ball.isActive = false ∧
    initGame.ball.update 1 gravityVec flightDragCoeff = initGame.ball :=
  ⟨le_refl 0, c8_ball_update_spec.1 initGame.ball 1 gravityVec 0 (le_refl 0), rfl,
    (c8_ball_update_spec.2 initGame.ball 1 gravityVec flightDragCoeff rfl).1⟩

theorem walk_eq_cum (l : List PitchDef) : ∀ (r acc : ℝ),
    weightedWalk l (r - acc) = firstCumExceeding l r acc := by
  induction l with
  | nil => intro r acc; rfl
  | cons p rest ih =>
    intro r acc
    simp only [weightedWalk, firstCumExceeding]
    by_cases h : r < acc + p.usageWeight
    · rw [if_pos (show r - acc < p.usageWeight by linarith), if_pos h]
    · rw [if_neg (show ¬(r - acc < p.usageWeight) by push_neg at h ⊢; linarith),
        if_neg h,
        show r - acc - p.usageWeight = r - (acc + p.usageWeight) by ring, ih]

theorem foldl_shift (l : List PitchDef) : ∀ a : ℝ,
    l.foldl (fun s q => s + q.usageWeight) a =
      a + l.foldl (fun s q => s + q.usageWeight) 0 := by
  induction l with
  | nil => intro a; simp
  | cons q rest ih =>
    intro a
    simp only [List.foldl_cons]
    rw [ih (a + q.usageWeight), ih (0 + q.usageWeight)]
    ring

theorem totalUsage_cons (p : PitchDef) (l : List PitchDef) :
    totalUsageWeight (p :: l) = p.usageWeight + totalUsageWeight l := by
  unfold totalUsageWeight
  simp only [List.foldl_cons]
  rw [foldl_shift l (0 + p.usageWeight), zero_add]

theorem walk_isSome (l : List PitchDef) : ∀ r : ℝ, 0 ≤ r → r < totalUsageWeight l →
    (weightedWalk l r).isSome = true := by
  induction l with
  | nil =>
    intro r h0 h1
    exact absurd (lt_of_le_of_lt h0 h1) (lt_irrefl 0)
  | cons p rest ih =>
    intro r h0 h1
    rw [totalUsage_cons] at h1
    simp only [weightedWalk]
    split_ifs with h
    · rfl
    · exact ih (r - p.usageWeight) (by push_neg at h; linarith) (by linarith)

/-- C9: the subtractive walk of PitcherAI._chooseWeightedRandom selects the
first definition whose cumulative weight exceeds the draw, with the last
definition as fallback, so it coincides with the specification wording on all
lists and draws; on every draw inside [0, totalWeight) the walk itself
already selects.  With the shipped weights the draws 0 and 0.499 select the
four-seam fastball and 0.5 selects the slider. -/
theorem c9_weighted_selection :
    (∀ (l : List PitchDef) (r : ℝ), chooseWeightedRandom l r = chooseWeightedSpec l r) ∧
    (∀ (l : List PitchDef) (r : ℝ), 0 ≤ r → r < totalUsageWeight l →
      (weightedWalk l r).isSome = true) ∧
    (∀ (l : List PitchDef) (r : ℝ), weightedWalk l r = none →
      chooseWeightedRandom l r = l.getLast?) ∧
    (chooseWeightedRandom pitchDefs 0 = some fourSeamDef ∧
      chooseWeightedRandom pitchDefs (499 / 1000) = some fourSeamDef ∧
      chooseWeightedRandom pitchDefs (1 / 2) = some sliderDef) ∧
    (totalUsageWeight pitchDefs = 1 ∧ fourSeamDef.usageWeight = 0.5 ∧
      sliderDef.usageWeight = 0.2 ∧ curveDef.usageWeight = 0.15 ∧
      changeupDef.usageWeight = 0.15) := by
  refine ⟨?_, walk_isSome, ?_, ⟨?_, ?_, ?_⟩, ?_⟩
  · intro l r
    have h := walk_eq_cum l r 0
    rw [sub_zero] at h
    unfold chooseWeightedRandom chooseWeightedSpec
    rw [h]
  · intro l r h
    unfold chooseWeightedRandom
    rw [h]
  · norm_num [chooseWeightedRandom, pitchDefs, weightedWalk, fourSeamDef]
  · norm_num [chooseWeightedRandom, pitchDefs, weightedWalk, fourSeamDef]
  · norm_num [chooseWeightedRandom, pitchDefs, weightedWalk, fourSeamDef, sliderDef]
  · norm_num [totalUsageWeight, pitchDefs, List.foldl, fourSeamDef, sliderDef,
      curveDef, changeupDef]

/-- Witness: the in-range selection guarantee applied to the shipped pitch
list at the draw one half. -/
theorem c9_weighted_selection_witness :
    (0 : ℝ) ≤ 1 / 2 ∧ (1 / 2 : ℝ) < totalUsageWeight pitchDefs ∧
    (weightedWalk pitchDefs (1 / 2)).isSome = true := by
  have h1 : (0 : ℝ) ≤ 1 / 2 := by norm_num
  have h2 : (1 / 2 : ℝ) < totalUsageWeight pitchDefs := by
    norm_num [totalUsageWeight, pitchDefs, List.foldl, fourSeamDef, sliderDef,
      curveDef, changeupDef]
  exact ⟨h1, h2, c9_weighted_selection.2.1 pitchDefs (1 / 2) h1 h2⟩

/-- C10: contact quality is antitone in the reticle-to-ball screen distance on
the hit radius, always lies in [0, 1], equals 1 inside the perfect radius and
0.7 times the linear decay beyond it, and every quality reported by the
screen-space contact check lies in [0, 1]. -/
theorem c10_quality_monotone :
    (∀ d1 d2 : ℝ, 0 ≤ d1 → d1 ≤ d2 → d2 ≤ maxScreenDistForHit →
      perfectFactor d2 ≤ perfectFactor d1) ∧
    (∀ d : ℝ, 0 ≤ perfectFactor d ∧ perfectFactor d ≤ 1) ∧
    (∀ d : ℝ, d ≤ maxScreenDistForPerfect → perfectFactor d = 1) ∧
    (∀ d : ℝ, maxScreenDistForPerfect < d → d ≤ maxScreenDistForHit →
      perfectFactor d = 0.7 * (1 - d / maxScreenDistForHit)) ∧
    (∀ (a : AimInput) (s : Game) (bq : Vec3 × ℝ),
      s.tryScreenSpaceContact a = some bq → 0 ≤ bq.2 ∧ bq.2 ≤ 1) := by
  have hM : (0 : ℝ) < maxScreenDistForHit := by norm_num [maxScreenDistForHit]
  refine ⟨?_, perfectFactor_bounds, ?_, ?_, ?_⟩
  · intro d1 d2 h0 h12 h2max
    unfold perfectFactor
    split_ifs with ha hb hb
    · exact le_refl 1
    · exact absurd (le_trans h12 ha) hb
    · obtain ⟨hl, hu⟩ := clampR_mem (1 - d2 / maxScreenDistForHit) 0 1 zero_le_one
      unfold distFactorOf
      nlinarith
    · refine mul_le_mul_of_nonneg_right ?_ (by norm_num)
      unfold distFactorOf clampR
      exact max_le_max (le_refl 0)
        (min_le_min (le_refl 1) (sub_le_sub_left ((div_le_div_right hM).mpr h12) 1))
  · intro d h
    unfold perfectFactor
    rw [if_pos h]
  · intro d h1 h2
    have hd0 : (0 : ℝ) < d := lt_trans (by norm_num [maxScreenDistForPerfect]) h1
    have hv0 : 0 ≤ 1 - d / maxScreenDistForHit := by
      have := (div_le_one hM).mpr h2
      linarith
    have hv1 : 1 - d / maxScreenDistForHit ≤ 1 := by
      have := div_nonneg (le_of_lt hd0) (le_of_lt hM)
      linarith
    unfold perfectFactor distFactorOf clampR
    rw [if_neg (not_le.mpr h1), min_eq_right hv1, max_eq_right hv0]
    ring
  · intro a s bq h
    exact ⟨(tryContact_some_conditions a s bq h).2.2.2.1,
      (tryContact_some_conditions a s bq h).2.2.2.2⟩

/-- Witness: antitonicity between distances 0.08 and 0.10, the decay formula
at 0.10, perfect quality at 0.05, and the in-range quality of a concrete
resolved contact. -/
theorem c10_quality_monotone_witness :
    ((0 : ℝ) ≤ 8 / 100 ∧ (8 / 100 : ℝ) ≤ 1 / 10 ∧ (1 / 10 : ℝ) ≤ maxScreenDistForHit ∧
      perfectFactor (1 / 10) ≤ perfectFactor (8 / 100)) ∧
    (maxScreenDistForPerfect < (1 / 10 : ℝ) ∧
      perfectFactor (1 / 10) = 0.7 * (1 - (1 / 10) / maxScreenDistForHit)) ∧
    ((5 / 100 : ℝ) ≤ maxScreenDistForPerfect ∧ perfectFactor (5 / 100) = 1) ∧
    (gameW.tryScreenSpaceContact aimW = some (gameW.ball.pos, 1) ∧
      0 ≤ (gameW.ball.pos, (1 : ℝ)).2 ∧ (gameW.ball.pos, (1 : ℝ)).2 ≤ 1) := by
  have h1 : (0 : ℝ) ≤ 8 / 100 := by norm_num
  have h2 : (8 / 100 : ℝ) ≤ 1 / 10 := by norm_num
  have h3 : (1 / 10 : ℝ) ≤ maxScreenDistForHit := by norm_num [maxScreenDistForHit]
  have h4 : maxScreenDistForPerfect < (1 / 10 : ℝ) := by norm_num [maxScreenDistForPerfect]
  have h5 : (5 / 100 : ℝ) ≤ maxScreenDistForPerfect := by norm_num [maxScreenDistForPerfect]
  have htc : gameW.tryScreenSpaceContact aimW = some (gameW.ball.pos, 1) :=
    tryContact_aimW_eval gameW rfl (by norm_num [gameW, initGame, plateZ, swingTimingWindowZ])
  exact ⟨⟨h1, h2, h3, c10_quality_monotone.1 (8 / 100) (1 / 10) h1 h2 h3⟩,
    ⟨h4, c10_quality_monotone.2.2.2.1 (1 / 10) h4 h3⟩,
    ⟨h5, c10_quality_monotone.2.2.1 (5 / 100) h5⟩,
    ⟨htc, c10_quality_monotone.2.2.2.2 aimW gameW (gameW.ball.pos, 1) htc⟩⟩
